import Mathlib

/-!
Shallow embedding of the Roslyn LSP proxy (the `proxy` crate of the
repository): the JSON-RPC message model (`src/proxy/src/message.rs`), the
id mapper (`src/proxy/src/id_mapper.rs`), the middleware pipeline and its
eleven concrete middlewares (`src/proxy/src/middleware/*.rs`), and the
router (`src/proxy/src/router.rs`).

Conventions of the embedding:
* `serde_json::Value` is modelled by the inductive `Json`; numbers are
  modelled as `Int` (no claim involves non-integer numbers).
* Interior mutability (`DashMap`, `Mutex<HashSet>`, atomics) is modelled
  by explicit state passing; maps and sets become association lists and
  lists with the same lookup/insert/remove semantics.
* Filesystem access (`std::fs`) is modelled by an explicit read-only
  `FileSystem` value passed to the functions that read from disk.
* Rust `String` operations are re-implemented structurally over
  `List Char` so that all definitions reduce in the kernel.
-/

namespace RoslynProxy

/-- Splits a character list at every occurrence of `c`, like Rust
`str::split(char)`: `n` separators yield `n+1` (possibly empty) pieces. -/
def splitCh (c : Char) : List Char → List (List Char)
  | [] => [[]]
  | x :: tl =>
    let rest := splitCh c tl
    if x = c then [] :: rest
    else match rest with
      | [] => [[x]]
      | hd :: tl2 => (x :: hd) :: tl2

/-- String version of `splitCh`. -/
def strSplitCh (c : Char) (s : String) : List String :=
  (splitCh c s.data).map (fun l => ⟨l⟩)

/-- Whether `pat` occurs as a contiguous substring of `l`
(Rust `str::contains`). -/
def containsSub (l pat : List Char) : Bool :=
  pat.isPrefixOf l ||
    match l with
    | [] => false
    | _ :: tl => containsSub tl pat

/-- String version of `containsSub`. -/
def strContains (s pat : String) : Bool :=
  containsSub s.data pat.data

/-- Rust `str::starts_with` for string patterns. -/
def strStartsWith (s pre : String) : Bool :=
  pre.data.isPrefixOf s.data

/-- Rust `str::ends_with` for string patterns. -/
def strEndsWith (s suf : String) : Bool :=
  suf.data.reverse.isPrefixOf s.data.reverse

/-- Fueled worker for `trimStartMatches`; the fuel is the length of the
input, which bounds the number of non-empty prefix removals. -/
def trimStartMatchesAux (pat : List Char) : Nat → List Char → List Char
  | 0, l => l
  | Nat.succ fuel, l =>
    if pat.isPrefixOf l ∧ pat ≠ [] then trimStartMatchesAux pat fuel (l.drop pat.length)
    else l

/-- Rust `str::trim_start_matches`: repeatedly removes the prefix `pat`. -/
def trimStartMatches (s pat : String) : String :=
  ⟨trimStartMatchesAux pat.data s.data.length s.data⟩

/-- Rust `str::replace('\\', "/")`, the single normalization the proxy
performs on solution-relative paths. -/
def backslashToSlash (s : String) : String :=
  ⟨s.data.map (fun c => if c = '\\' then '/' else c)⟩

/-- Rust `str::lines`: split on newline, dropping one trailing carriage
return per line, and dropping the final empty piece produced by a
trailing newline (or by the empty string). -/
def strLines (s : String) : List String :=
  let pieces := splitCh '\n' s.data
  let pieces :=
    match pieces.getLast? with
    | some [] => pieces.dropLast
    | _ => pieces
  pieces.map (fun l => ⟨if l.getLast? = some '\r' then l.dropLast else l⟩)

/-- Models `std::path::Path::parent` rendered back to a string: drops the
last `/`-separated component (and the separator). Returns `none` for the
empty path. -/
def pathParent (s : String) : Option String :=
  match s.data with
  | [] => none
  | l => some ⟨((l.reverse.dropWhile (fun c => ¬ c = '/')).drop 1).reverse⟩

/-- Models `Path::extension() == Some(ext)` as a suffix test on `.ext`. -/
def hasExt (p : String) (ext : String) : Bool :=
  strEndsWith p ("." ++ ext)

/-- Models `Path::join` of a directory and a relative path. -/
def joinPath (dir rel : String) : String :=
  if dir = "" then rel else dir ++ "/" ++ rel

/-- JSON values (`serde_json::Value`); numbers restricted to integers. -/
inductive Json where
  | null : Json
  | bool (b : Bool) : Json
  | num (n : Int) : Json
  | str (s : String) : Json
  | arr (xs : List Json) : Json
  | obj (fields : List (String × Json)) : Json

/-- Models `Value::get(key)` on objects: the value bound to `key`
(first binding), `none` on non-objects or missing keys. -/
def Json.get : Json → String → Option Json
  | .obj fields, key => go fields key
  | _, _ => none
where go : List (String × Json) → String → Option Json
  | [], _ => none
  | (k, v) :: tl, key => if k = key then some v else go tl key

/-- Models `Value::as_str`. -/
def Json.asStr : Json → Option String
  | .str s => some s
  | _ => none

/-- Models `Value::as_array`. -/
def Json.asArr : Json → Option (List Json)
  | .arr xs => some xs
  | _ => none

/-- Models `value[key] = v` on an object: replaces the first binding of
`key`, or appends one. -/
def Json.objSet : Json → String → Json → Json
  | .obj fields, key, v => .obj (go fields key v)
  | j, _, _ => j
where go : List (String × Json) → String → Json → List (String × Json)
  | [], key, v => [(key, v)]
  | (k, w) :: tl, key, v => if k = key then (key, v) :: tl else (k, w) :: go tl key v

/-- `MessageId` of `message.rs`: untagged union of a signed 64-bit
integer and a string. -/
inductive MessageId where
  | num (n : Int) : MessageId
  | str (s : String) : MessageId
  deriving DecidableEq

/-- `RequestMessage` of `message.rs`. -/
structure RequestMessage where
  jsonrpc : String
  id : MessageId
  method : String
  params : Option Json

/-- `ResponseError` of `message.rs`. -/
structure ResponseError where
  code : Int
  message : String
  data : Option Json

/-- `ResponseMessage` of `message.rs`. -/
structure ResponseMessage where
  jsonrpc : String
  id : MessageId
  result : Option Json
  error : Option ResponseError

/-- `NotificationMessage` of `message.rs`. -/
structure NotificationMessage where
  jsonrpc : String
  method : String
  params : Option Json

/-- `Message` of `message.rs`: untagged union of the three variants. -/
inductive Message where
  | request (req : RequestMessage) : Message
  | response (resp : ResponseMessage) : Message
  | notification (notif : NotificationMessage) : Message

/-- `Message::method`. -/
def Message.methodOf : Message → Option String
  | .request req => some req.method
  | .notification notif => some notif.method
  | .response _ => none

/-- `Message::id`. -/
def Message.idOf : Message → Option MessageId
  | .request req => some req.id
  | .response resp => some resp.id
  | .notification _ => none

/-- The `jsonrpc` field of whichever variant. -/
def Message.jsonrpcOf : Message → String
  | .request req => req.jsonrpc
  | .response resp => resp.jsonrpc
  | .notification notif => notif.jsonrpc

/-- Serialization of `MessageId` (untagged). -/
def MessageId.toJson : MessageId → Json
  | .num n => .num n
  | .str s => .str s

/-- Serialization of `ResponseError`: `data` is skipped when absent
(`skip_serializing_if = "Option::is_none"`). -/
def ResponseError.toJson (e : ResponseError) : Json :=
  .obj ([("code", .num e.code), ("message", .str e.message)] ++
    (match e.data with
     | none => []
     | some d => [("data", d)]))

/-- Serialization of `RequestMessage`: `params` is skipped when absent. -/
def RequestMessage.toJson (r : RequestMessage) : Json :=
  .obj ([("jsonrpc", .str r.jsonrpc), ("id", r.id.toJson), ("method", .str r.method)] ++
    (match r.params with
     | none => []
     | some p => [("params", p)]))

/-- Serialization of `ResponseMessage`: `error` is skipped when absent,
but `result` carries no skip attribute in `message.rs`, so an absent
result is serialized as JSON `null`. -/
def ResponseMessage.toJson (r : ResponseMessage) : Json :=
  .obj ([("jsonrpc", .str r.jsonrpc), ("id", r.id.toJson),
         ("result", match r.result with
                    | none => Json.null
                    | some v => v)] ++
    (match r.error with
     | none => []
     | some e => [("error", e.toJson)]))

/-- Serialization of `NotificationMessage`: `params` is skipped when
absent. -/
def NotificationMessage.toJson (n : NotificationMessage) : Json :=
  .obj ([("jsonrpc", .str n.jsonrpc), ("method", .str n.method)] ++
    (match n.params with
     | none => []
     | some p => [("params", p)]))

/-- Serialization of `Message` (untagged: the variant serializes as
itself). -/
def Message.toJson : Message → Json
  | .request req => req.toJson
  | .response resp => resp.toJson
  | .notification notif => notif.toJson

/-- Association-list lookup with `MessageId` keys, modelling
`DashMap::get`. -/
def idLookup : List (MessageId × MessageId) → MessageId → Option MessageId
  | [], _ => none
  | (k, v) :: tl, key => if k = key then some v else idLookup tl key

/-- Association-list insert modelling `DashMap::insert`: replaces the
first binding of the key or appends one. -/
def idInsert : List (MessageId × MessageId) → MessageId → MessageId → List (MessageId × MessageId)
  | [], key, v => [(key, v)]
  | (k, w) :: tl, key, v => if k = key then (key, v) :: tl else (k, w) :: idInsert tl key v

/-- Association-list removal modelling `DashMap::remove`: removes the
first binding of the key. -/
def idErase : List (MessageId × MessageId) → MessageId → List (MessageId × MessageId)
  | [], _ => []
  | (k, w) :: tl, key => if k = key then tl else (k, w) :: idErase tl key

/-- State of `IdMapper` (`id_mapper.rs`): the atomic counter and the two
directional maps. -/
structure IdMapperState where
  next_id : Int
  client_to_server : List (MessageId × MessageId)
  server_to_client : List (MessageId × MessageId)

/-- `IdMapper::new`. -/
def IdMapperState.new : IdMapperState :=
  { next_id := 1, client_to_server := [], server_to_client := [] }

/-- `IdMapper::map_client_id`: returns the server id already associated
with the client id, or allocates `next_id`, records both directions, and
returns it together with the updated state. -/
def map_client_id (m : IdMapperState) (client_id : MessageId) : MessageId × IdMapperState :=
  match idLookup m.client_to_server client_id with
  | some server_id => (server_id, m)
  | none =>
    let server_id := MessageId.num m.next_id
    (server_id,
      { next_id := m.next_id + 1,
        client_to_server := idInsert m.client_to_server client_id server_id,
        server_to_client := idInsert m.server_to_client server_id client_id })

/-- `IdMapper::get_client_id`: lookup only. -/
def get_client_id (m : IdMapperState) (server_id : MessageId) : Option MessageId :=
  idLookup m.server_to_client server_id

/-- `IdMapper::remove`: removes the pair from both directions, keyed by
the server id. -/
def IdMapperState.remove (m : IdMapperState) (server_id : MessageId) : IdMapperState :=
  match idLookup m.server_to_client server_id with
  | none => m
  | some client_id =>
    { m with
      server_to_client := idErase m.server_to_client server_id,
      client_to_server := idErase m.client_to_server client_id }

/-- Read-only model of the filesystem the proxy process sees:
`files` maps a path to the content `std::fs::read_to_string` returns,
`dirs` maps a directory to the (ordered) entry paths `std::fs::read_dir`
yields; a path absent from a map makes the corresponding call fail. -/
structure FileSystem where
  files : List (String × String)
  dirs : List (String × List String)

/-- Association lookup with string keys. -/
def strAssoc {α : Type} : List (String × α) → String → Option α
  | [], _ => none
  | (k, v) :: tl, key => if k = key then some v else strAssoc tl key

/-- `std::fs::read_to_string`. -/
def FileSystem.readFile (fs : FileSystem) (p : String) : Option String :=
  strAssoc fs.files p

/-- `std::fs::read_dir`. -/
def FileSystem.readDir (fs : FileSystem) (p : String) : Option (List String) :=
  strAssoc fs.dirs p

/-- `Path::is_dir`. -/
def FileSystem.isDir (fs : FileSystem) (p : String) : Bool :=
  (fs.readDir p).isSome

/-- `Action` of `middleware/mod.rs`. -/
inductive Action where
  | cont : Action
  | block : Action
  | replace (m : Message) : Action
  | inject (ms : List Message) : Action
  | respondAndContinue (m : Message) : Action

/-- Membership in a list of strings, modelling `HashSet<String>::contains`. -/
def memStr (u : String) : List String → Bool
  | [] => false
  | x :: tl => x = u || memStr u tl

/-- Removal from a list of strings, modelling `HashSet<String>::remove`. -/
def removeStr (u : String) : List String → List String
  | [] => []
  | x :: tl => if x = u then tl else x :: removeStr u tl

/-- Membership in a list of message ids, modelling the key-containment
of `DashMap<MessageId, ()>`. -/
def memId (i : MessageId) : List MessageId → Bool
  | [] => false
  | x :: tl => x = i || memId i tl

/-- Removal from a list of message ids, modelling
`DashMap<MessageId, ()>::remove`. -/
def removeId (i : MessageId) : List MessageId → List MessageId
  | [] => []
  | x :: tl => if x = i then tl else x :: removeId i tl

/-- State of `SolutionLoaderMiddleware` (`solution_loader.rs`). -/
structure SolutionLoaderState where
  workspace_root : Option String
  solution_opened : Bool
  pending_cs_files : List Message

/-- `SolutionLoaderMiddleware::new`. -/
def SolutionLoaderState.new : SolutionLoaderState :=
  { workspace_root := none, solution_opened := false, pending_cs_files := [] }

/-- State of `ProjectRestoreMiddleware` (`project_restore.rs`). -/
structure ProjectRestoreState where
  request_id : Int
  in_progress : Bool
  pending_uuids : List String

/-- `ProjectRestoreMiddleware::new`: the private request-id generator
starts at 90000. -/
def ProjectRestoreState.new : ProjectRestoreState :=
  { request_id := 90000, in_progress := false, pending_uuids := [] }

/-- Combined per-middleware state of the pipeline: the open-document set
of `DocumentLifecycleMiddleware`, the solution-loader state, the
project-restore state, and the remembered-id set of
`DiagnosticsMiddleware`.  The remaining middlewares are stateless. -/
structure PipelineState where
  opened_documents : List String
  solution : SolutionLoaderState
  restore : ProjectRestoreState
  diagnostic_requests : List MessageId

/-- The pipeline state at process start. -/
def PipelineState.new : PipelineState :=
  { opened_documents := [], solution := SolutionLoaderState.new,
    restore := ProjectRestoreState.new, diagnostic_requests := [] }

/-- A middleware hook: a pure function of the filesystem, the pipeline
state and the message, returning an `Action` and the updated state
(all concrete hooks in the crate are infallible, so no error case). -/
abbrev MwStep := FileSystem → PipelineState → Message → Action × PipelineState

/-- The default hook of the `Middleware` trait: `Continue`. -/
def defaultStep : MwStep := fun _ st _ => (Action.cont, st)

/-- Models `lsp_types::Url::parse` at the precision the claims need: a
string parses as a URL exactly when it contains a scheme separator, and
the parsed URL renders back to the original string. -/
def parseUrl (s : String) : Option String :=
  if strContains s "://" then some s else none

/-- Models `Url::to_file_path` for `file://` URLs: strips the scheme. -/
def uriToFilePath (s : String) : Option String :=
  if strStartsWith s "file://" then some ⟨s.data.drop 7⟩ else none

/-- Models the serde decode of `lsp_types::DidOpenTextDocumentParams`
well enough for the open-set bookkeeping: all four fields of
`textDocument` must be present with the right shapes; yields the
document URI. -/
def parseDidOpenParams (p : Json) : Option String := do
  let td ← p.get "textDocument"
  let uri ← (td.get "uri").bind Json.asStr
  let _ ← parseUrl uri
  let _ ← (td.get "languageId").bind Json.asStr
  let _ ← td.get "version"
  let _ ← (td.get "text").bind Json.asStr
  some uri

/-- Models the serde decode of `lsp_types::DidCloseTextDocumentParams`;
yields the document URI. -/
def parseDidCloseParams (p : Json) : Option String := do
  let td ← p.get "textDocument"
  let uri ← (td.get "uri").bind Json.asStr
  let _ ← parseUrl uri
  some uri

/-- `DocumentLifecycleMiddleware::extract_uri_from_request`. -/
def extract_uri_from_request (m : Message) : Option String :=
  match m with
  | .request req =>
    match req.params with
    | some params => (params.get "textDocument").bind (fun td => (td.get "uri").bind Json.asStr)
    | none => none
  | _ => none

/-- `DocumentLifecycleMiddleware::create_did_open_notification`: parse
the URI, read the file, and synthesize a `textDocument/didOpen`
notification with version 0 and language id `csharp` for `.cs` files. -/
def create_did_open_notification (fs : FileSystem) (uri : String) : Option Message := do
  let _ ← parseUrl uri
  let uri_path ← uriToFilePath uri
  let content ← fs.readFile uri_path
  let language_id := if strEndsWith uri ".cs" then "csharp" else "plaintext"
  some (.notification
    { jsonrpc := "2.0", method := "textDocument/didOpen",
      params := some (.obj [("textDocument", .obj
        [("uri", .str uri), ("languageId", .str language_id),
         ("version", .num 0), ("text", .str content)])]) })

/-- `DocumentLifecycleMiddleware::process_client_message`. -/
def documentLifecycle_client : MwStep := fun fs st m =>
  match m with
  | .notification notif =>
    if notif.method = "textDocument/didOpen" then
      match notif.params with
      | some p =>
        match parseDidOpenParams p with
        | some uri => (Action.cont, { st with opened_documents := uri :: st.opened_documents })
        | none => (Action.cont, st)
      | none => (Action.cont, st)
    else if notif.method = "textDocument/didClose" then
      match notif.params with
      | some p =>
        match parseDidCloseParams p with
        | some uri => (Action.cont, { st with opened_documents := removeStr uri st.opened_documents })
        | none => (Action.cont, st)
      | none => (Action.cont, st)
    else (Action.cont, st)
  | .request _ =>
    match extract_uri_from_request m with
    | some uri =>
      if ¬ memStr uri st.opened_documents ∧ strEndsWith uri ".cs" then
        match create_did_open_notification fs uri with
        | some did_open =>
          (Action.inject [did_open], { st with opened_documents := uri :: st.opened_documents })
        | none => (Action.cont, st)
      else (Action.cont, st)
    | none => (Action.cont, st)
  | _ => (Action.cont, st)

/-- `SolutionLoaderMiddleware::extract_workspace_root`: on an
`initialize` request, `rootUri` (when it is a `file://` URI, stripped of
the scheme by `trim_start_matches`) or else `rootPath`. -/
def extract_workspace_root (m : Message) : Option String :=
  match m with
  | .request req =>
    if req.method = "initialize" then
      match req.params with
      | some params =>
        match (params.get "rootUri").bind Json.asStr with
        | some root_uri =>
          if strStartsWith root_uri "file://" then some (trimStartMatches root_uri "file://")
          else match (params.get "rootPath").bind Json.asStr with
               | some root_path => some root_path
               | none => none
        | none =>
          match (params.get "rootPath").bind Json.asStr with
          | some root_path => some root_path
          | none => none
      | none => none
    else none
  | _ => none

/-- First entry of a directory listing whose path has the `.sln`
extension. -/
def firstSln : List String → Option String :=
  List.find? (fun p => hasExt p "sln")

/-- First entry whose path has the `.csproj` extension. -/
def firstCsproj : List String → Option String :=
  List.find? (fun p => hasExt p "csproj")

/-- Worker for `SolutionLoaderMiddleware::find_solution_file`: scan the
entries of the workspace root in order; a `.sln` entry wins, otherwise a
`.sln` inside a directory entry wins. -/
def findSlnInEntries (fs : FileSystem) : List String → Option String
  | [] => none
  | p :: tl =>
    if hasExt p "sln" then some p
    else
      match (if fs.isDir p then fs.readDir p else none) with
      | some subs =>
        match firstSln subs with
        | some q => some q
        | none => findSlnInEntries fs tl
      | none => findSlnInEntries fs tl

/-- `SolutionLoaderMiddleware::find_solution_file`: search the workspace
root and its immediate subdirectories for a solution file. -/
def find_solution_file (fs : FileSystem) (workspace_root : String) : Option String :=
  match fs.readDir workspace_root with
  | some entries => findSlnInEntries fs entries
  | none => none

/-- One line of `extract_project_files`: a line containing `Project("`
contributes its sixth quote-delimited field, backslashes normalized,
when that field ends in `.csproj`. -/
def projectOfLine (solution_dir line : String) : Option String :=
  if strContains line "Project(\"" then
    let parts := strSplitCh '"' line
    if parts.length ≥ 6 then
      match parts.get? 5 with
      | some raw =>
        let project_rel_path := backslashToSlash raw
        if strEndsWith project_rel_path ".csproj" then some (joinPath solution_dir project_rel_path)
        else none
      | none => none
    else none
  else none

/-- `SolutionLoaderMiddleware::extract_project_files`. -/
def extract_project_files (fs : FileSystem) (solution_path : String) : List String :=
  match fs.readFile solution_path with
  | none => []
  | some solution_content =>
    let solution_dir := (pathParent solution_path).getD ""
    (strLines solution_content).filterMap (projectOfLine solution_dir)

/-- `SolutionLoaderMiddleware::validate_solution` as a boolean: the file
is readable and contains at least one `Project("` line. -/
def validate_solution (fs : FileSystem) (solution_path : String) : Bool :=
  match fs.readFile solution_path with
  | none => false
  | some solution_content =>
    ((strLines solution_content).filter (fun line => strContains line "Project(\"")).length ≠ 0

/-- `SolutionLoaderMiddleware::create_solution_and_project_notifications`:
`solution/open` with the solution `file://` URI, followed by
`project/open` with the project `file://` URIs when any were found. -/
def create_solution_and_project_notifications (fs : FileSystem) (solution_path : String) :
    List Message :=
  Message.notification
    { jsonrpc := "2.0", method := "solution/open",
      params := some (.obj [("solution", .str ("file://" ++ solution_path))]) } ::
  (let project_files := extract_project_files fs solution_path
   if project_files.isEmpty then []
   else [Message.notification
     { jsonrpc := "2.0", method := "project/open",
       params := some (.obj [("projects",
         .arr (project_files.map (fun p => .str ("file://" ++ p))))]) }])

/-- `SolutionLoaderMiddleware::process_client_message`. -/
def solutionLoader_client : MwStep := fun fs st m =>
  let sl :=
    match extract_workspace_root m with
    | some root => { st.solution with workspace_root := some root }
    | none => st.solution
  match m with
  | .notification notif =>
    if notif.method = "initialized" then
      match sl.workspace_root with
      | some root =>
        match find_solution_file fs root with
        | some solution_path =>
          if validate_solution fs solution_path then
            let sl2 := { sl with solution_opened := true }
            let notifications := create_solution_and_project_notifications fs solution_path
            if notifications.isEmpty then (Action.cont, { st with solution := sl2 })
            else (Action.inject notifications, { st with solution := sl2 })
          else (Action.cont, { st with solution := sl })
        | none => (Action.cont, { st with solution := sl })
      | none => (Action.cont, { st with solution := sl })
    else if notif.method = "textDocument/didOpen" then
      match notif.params with
      | some p =>
        match (p.get "textDocument").bind (fun td => (td.get "uri").bind Json.asStr) with
        | some uri =>
          if strEndsWith uri ".cs" ∧ ¬ sl.solution_opened then
            (Action.block,
              { st with solution := { sl with pending_cs_files := sl.pending_cs_files ++ [m] } })
          else (Action.cont, { st with solution := sl })
        | none => (Action.cont, { st with solution := sl })
      | none => (Action.cont, { st with solution := sl })
    else (Action.cont, { st with solution := sl })
  | _ => (Action.cont, { st with solution := sl })

/-- `SolutionLoaderMiddleware::process_server_message`: on
`workspace/projectInitializationComplete`, inject the queued `.cs`
`didOpen` notifications and clear the queue. -/
def solutionLoader_server : MwStep := fun _ st m =>
  match m with
  | .notification notif =>
    if notif.method = "workspace/projectInitializationComplete" then
      if st.solution.pending_cs_files.isEmpty then (Action.cont, st)
      else
        (Action.inject st.solution.pending_cs_files,
          { st with solution := { st.solution with pending_cs_files := [] } })
    else (Action.cont, st)
  | _ => (Action.cont, st)

/-- The UUID a `projectNeedsRestore`-family message carries:
`params.get("UUID").and_then(|v| v.as_str())`. -/
def uuidOfParams (params : Option Json) : Option String :=
  match params with
  | some p => (p.get "UUID").bind Json.asStr
  | none => none

/-- Worker loop of `ProjectRestoreMiddleware::find_project_file`: walk
ancestor directories looking for a directory entry with the `.csproj`
extension.  The fuel bounds the walk; `pathParent` strictly shortens a
non-empty path, so `length + 1` steps always reach the `none` parent. -/
def findProjAux (fs : FileSystem) : Nat → String → Option String
  | 0, _ => none
  | Nat.succ fuel, current =>
    match (match fs.readDir current with
           | some entries => firstCsproj entries
           | none => none) with
    | some p => some p
    | none =>
      match pathParent current with
      | some parentDir => findProjAux fs fuel parentDir
      | none => none

/-- `ProjectRestoreMiddleware::find_project_file`. -/
def find_project_file (fs : FileSystem) (source_file : String) : Option String :=
  if hasExt source_file "csproj" then some source_file
  else
    match pathParent source_file with
    | some current => findProjAux fs (current.length + 1) current
    | none => none

/-- `ProjectRestoreMiddleware::transform_project_paths`: map each string
entry of `projectFilePaths` through `find_project_file` (keeping the
original on failure); non-string entries are dropped.  The redundant
re-assignment of the `UUID` key in the Rust code copies the value the
clone already holds, so it is omitted here. -/
def transform_project_paths (fs : FileSystem) (params : Option Json) : Option Json := do
  let p ← params
  let project_paths ← (p.get "projectFilePaths").bind Json.asArr
  let transformed_paths := project_paths.filterMap (fun v =>
    (v.asStr).map (fun path_str =>
      match find_project_file fs path_str with
      | some project_file => project_file
      | none => path_str))
  some (p.objSet "projectFilePaths" (.arr (transformed_paths.map Json.str)))

/-- The locally synthesized `{needed_restore: b}` response of the
project-restore middleware. -/
def neededRestoreResponse (id : MessageId) (b : Bool) : ResponseMessage :=
  { jsonrpc := "2.0", id := id, result := some (.obj [("needed_restore", .bool b)]),
    error := none }

/-- `ProjectRestoreMiddleware::process_server_message`. -/
def projectRestore_server : MwStep := fun fs st m =>
  match m with
  | .request req =>
    if req.method = "workspace/_roslyn_projectNeedsRestore" then
      let uuid := uuidOfParams req.params
      let dup :=
        match uuid with
        | some u => memStr u st.restore.pending_uuids
        | none => false
      if dup then (Action.replace (.response (neededRestoreResponse req.id false)), st)
      else
        let pending :=
          match uuid with
          | some u => u :: st.restore.pending_uuids
          | none => st.restore.pending_uuids
        if st.restore.in_progress then
          (Action.replace (.response (neededRestoreResponse req.id false)),
            { st with restore := { st.restore with pending_uuids := pending } })
        else
          (Action.replace (.response (neededRestoreResponse req.id true)),
            { st with restore :=
              { st.restore with pending_uuids := pending, in_progress := true } })
    else (Action.cont, st)
  | .notification notif =>
    if notif.method = "workspace/_roslyn_projectNeedsRestore" then
      let uuid := uuidOfParams notif.params
      let dup :=
        match uuid with
        | some u => memStr u st.restore.pending_uuids
        | none => false
      if dup then (Action.block, st)
      else
        let pending :=
          match uuid with
          | some u => u :: st.restore.pending_uuids
          | none => st.restore.pending_uuids
        if st.restore.in_progress then
          (Action.block, { st with restore := { st.restore with pending_uuids := pending } })
        else
          let restore_request : Message := .request
            { jsonrpc := "2.0", id := .num st.restore.request_id,
              method := "workspace/_roslyn_restore",
              params :=
                match transform_project_paths fs notif.params with
                | some t => some t
                | none => notif.params }
          (Action.inject [restore_request],
            { st with restore :=
              { request_id := st.restore.request_id + 1, in_progress := true,
                pending_uuids := pending } })
    else if notif.method = "workspace/_roslyn_restoreComplete" then
      let pending :=
        match uuidOfParams notif.params with
        | some u => removeStr u st.restore.pending_uuids
        | none => st.restore.pending_uuids
      (Action.cont,
        { st with restore := { st.restore with in_progress := false, pending_uuids := pending } })
    else (Action.cont, st)
  | _ => (Action.cont, st)

/-- The fixed configuration lookup table of
`ConfigurationMiddleware::handle_configuration_request`; unknown
sections answer `null`. -/
def configLookup (sectionName : String) : Json :=
  if sectionName = "csharp|symbol_search.dotnet_search_reference_assemblies" then .bool true
  else if sectionName = "visual_basic|symbol_search.dotnet_search_reference_assemblies" then .bool true
  else if sectionName = "navigation.dotnet_navigate_to_decompiled_sources" then .bool true
  else if sectionName = "navigation.dotnet_navigate_to_source_link_and_embedded_sources" then .bool true
  else if sectionName = "csharp|completion.dotnet_show_completion_items_from_unimported_namespaces" then .bool true
  else if sectionName = "visual_basic|completion.dotnet_show_completion_items_from_unimported_namespaces" then .bool true
  else if sectionName = "csharp|completion.dotnet_trigger_completion_in_argument_lists" then .bool true
  else if sectionName = "visual_basic|completion.dotnet_trigger_completion_in_argument_lists" then .bool true
  else if sectionName = "csharp|quick_info.dotnet_show_remarks_in_quick_info" then .bool true
  else if sectionName = "visual_basic|quick_info.dotnet_show_remarks_in_quick_info" then .bool true
  else if sectionName = "projects.dotnet_enable_automatic_restore" then .bool true
  else if sectionName = "projects.dotnet_enable_file_based_programs" then .bool true
  else if sectionName = "csharp|code_style.formatting.indentation_and_spacing.tab_width" then .num 4
  else if sectionName = "visual_basic|code_style.formatting.indentation_and_spacing.tab_width" then .num 4
  else if sectionName = "csharp|code_style.formatting.indentation_and_spacing.indent_size" then .num 4
  else if sectionName = "visual_basic|code_style.formatting.indentation_and_spacing.indent_size" then .num 4
  else if sectionName = "csharp|code_style.formatting.indentation_and_spacing.indent_style" then .str "space"
  else if sectionName = "visual_basic|code_style.formatting.indentation_and_spacing.indent_style" then .str "space"
  else if sectionName = "csharp|background_analysis.dotnet_analyzer_diagnostics_scope" then .str "openFiles"
  else if sectionName = "visual_basic|background_analysis.dotnet_analyzer_diagnostics_scope" then .str "openFiles"
  else if sectionName = "csharp|background_analysis.dotnet_compiler_diagnostics_scope" then .str "openFiles"
  else if sectionName = "visual_basic|background_analysis.dotnet_compiler_diagnostics_scope" then .str "openFiles"
  else if sectionName = "csharp|inlay_hints.dotnet_enable_inlay_hints_for_parameters" then .bool true
  else if sectionName = "visual_basic|inlay_hints.dotnet_enable_inlay_hints_for_parameters" then .bool true
  else if sectionName = "csharp|inlay_hints.dotnet_enable_inlay_hints_for_literal_parameters" then .bool true
  else if sectionName = "visual_basic|inlay_hints.dotnet_enable_inlay_hints_for_literal_parameters" then .bool true
  else if sectionName = "csharp|inlay_hints.dotnet_enable_inlay_hints_for_indexer_parameters" then .bool true
  else if sectionName = "visual_basic|inlay_hints.dotnet_enable_inlay_hints_for_indexer_parameters" then .bool true
  else if sectionName = "csharp|inlay_hints.dotnet_enable_inlay_hints_for_object_creation_parameters" then .bool true
  else if sectionName = "visual_basic|inlay_hints.dotnet_enable_inlay_hints_for_object_creation_parameters" then .bool true
  else if sectionName = "csharp|inlay_hints.dotnet_enable_inlay_hints_for_other_parameters" then .bool true
  else if sectionName = "visual_basic|inlay_hints.dotnet_enable_inlay_hints_for_other_parameters" then .bool true
  else if sectionName = "csharp|inlay_hints.dotnet_suppress_inlay_hints_for_parameters_that_differ_only_by_suffix" then .bool false
  else if sectionName = "visual_basic|inlay_hints.dotnet_suppress_inlay_hints_for_parameters_that_differ_only_by_suffix" then .bool false
  else if sectionName = "csharp|inlay_hints.dotnet_suppress_inlay_hints_for_parameters_that_match_method_intent" then .bool false
  else if sectionName = "visual_basic|inlay_hints.dotnet_suppress_inlay_hints_for_parameters_that_match_method_intent" then .bool false
  else if sectionName = "csharp|inlay_hints.dotnet_suppress_inlay_hints_for_parameters_that_match_argument_name" then .bool false
  else if sectionName = "visual_basic|inlay_hints.dotnet_suppress_inlay_hints_for_parameters_that_match_argument_name" then .bool false
  else if sectionName = "csharp|inlay_hints.csharp_enable_inlay_hints_for_types" then .bool true
  else if sectionName = "visual_basic|inlay_hints.csharp_enable_inlay_hints_for_types" then .bool true
  else if sectionName = "csharp|inlay_hints.csharp_enable_inlay_hints_for_implicit_variable_types" then .bool true
  else if sectionName = "visual_basic|inlay_hints.csharp_enable_inlay_hints_for_implicit_variable_types" then .bool true
  else if sectionName = "csharp|inlay_hints.csharp_enable_inlay_hints_for_lambda_parameter_types" then .bool true
  else if sectionName = "visual_basic|inlay_hints.csharp_enable_inlay_hints_for_lambda_parameter_types" then .bool true
  else if sectionName = "csharp|inlay_hints.csharp_enable_inlay_hints_for_implicit_object_creation" then .bool true
  else if sectionName = "visual_basic|inlay_hints.csharp_enable_inlay_hints_for_implicit_object_creation" then .bool true
  else if sectionName = "csharp|inlay_hints.csharp_enable_inlay_hints_for_collection_expressions" then .bool true
  else if sectionName = "visual_basic|inlay_hints.csharp_enable_inlay_hints_for_collection_expressions" then .bool true
  else .null

/-- The per-item answer: the table value for `item.section` (missing or
non-string sections read as `""`). -/
def configItemAnswer (item : Json) : Json :=
  configLookup (((item.get "section").bind Json.asStr).getD "")

/-- `ConfigurationMiddleware::handle_configuration_request`. -/
def handle_configuration_request (id : MessageId) (params : Json) : Option Message := do
  let items ← (params.get "items").bind Json.asArr
  some (.response { jsonrpc := "2.0", id := id,
                    result := some (.arr (items.map configItemAnswer)), error := none })

/-- `ConfigurationMiddleware::process_server_message`. -/
def configuration_server : MwStep := fun _ st m =>
  match m with
  | .request req =>
    if req.method = "workspace/configuration" then
      match req.params with
      | some params =>
        match handle_configuration_request req.id params with
        | some response => (Action.replace response, st)
        | none => (Action.cont, st)
      | none => (Action.cont, st)
    else (Action.cont, st)
  | _ => (Action.cont, st)

/-- `CapabilityRegistrationMiddleware::process_server_message`: answer
any `client/registerCapability` request locally with a null result. -/
def capabilityRegistration_server : MwStep := fun _ st m =>
  match m with
  | .request req =>
    if req.method = "client/registerCapability" then
      (Action.replace (.response
        { jsonrpc := "2.0", id := req.id, result := some .null, error := none }), st)
    else (Action.cont, st)
  | _ => (Action.cont, st)

/-- `DiagnosticsMiddleware::process_client_message`: remember the id of
every client `textDocument/diagnostic` request. -/
def diagnostics_client : MwStep := fun _ st m =>
  match m with
  | .request req =>
    if req.method = "textDocument/diagnostic" then
      (Action.cont, { st with diagnostic_requests :=
        if (memId req.id st.diagnostic_requests) then st.diagnostic_requests
        else req.id :: st.diagnostic_requests })
    else (Action.cont, st)
  | _ => (Action.cont, st)

/-- Whether an optional result is absent or JSON `null`
(`resp.result.is_none() || resp.result == Some(Value::Null)`). -/
def resultIsNull : Option Json → Bool
  | none => true
  | some .null => true
  | some _ => false

/-- `DiagnosticsMiddleware::process_server_message`: on a response whose
id was remembered, drop the remembered id, and when its result is absent
or null replace it by `{kind: "full", items: []}`. -/
def diagnostics_server : MwStep := fun _ st m =>
  match m with
  | .response resp =>
    if memId resp.id st.diagnostic_requests then
      let st' := { st with diagnostic_requests := removeId resp.id st.diagnostic_requests }
      if resultIsNull resp.result then
        (Action.replace (.response { resp with
          result := some (.obj [("kind", .str "full"), ("items", .arr [])]) }), st')
      else (Action.cont, st')
    else (Action.cont, st)
  | _ => (Action.cont, st)

/-- `RefreshMiddleware::is_refresh_method`. -/
def is_refresh_method (method : String) : Bool :=
  method = "workspace/diagnostic/refresh" ||
  method = "workspace/codeLens/refresh" ||
  method = "workspace/inlayHint/refresh" ||
  method = "workspace/semanticTokens/refresh"

/-- `RefreshMiddleware::should_fix_params`: an array or JSON `null`. -/
def should_fix_params : Option Json → Bool
  | some (.arr _) => true
  | some .null => true
  | _ => false

/-- `RefreshMiddleware::process_server_message`: strip the `params`
field of refresh requests and notifications. -/
def refresh_server : MwStep := fun _ st m =>
  match m with
  | .request req =>
    if is_refresh_method req.method ∧ should_fix_params req.params then
      (Action.replace (.request { req with params := none }), st)
    else (Action.cont, st)
  | .notification notif =>
    if is_refresh_method notif.method ∧ should_fix_params notif.params then
      (Action.replace (.notification { notif with params := none }), st)
    else (Action.cont, st)
  | _ => (Action.cont, st)

/-- `CustomNotificationsMiddleware::is_roslyn_custom_notification`. -/
def is_roslyn_custom_notification (method : String) : Bool :=
  strStartsWith method "workspace/_roslyn_" ||
  strStartsWith method "roslyn/" ||
  method = "workspace/projectInitializationComplete"

/-- `CustomNotificationsMiddleware::should_block_notification`. -/
def should_block_notification (method : String) : Bool :=
  method = "workspace/_roslyn_projectNeedsRestore"

/-- `CustomNotificationsMiddleware::should_convert_notification`. -/
def should_convert_notification (method : String) : Bool :=
  method = "workspace/_roslyn_openDocument"

/-- `CustomNotificationsMiddleware::should_log_notification`. -/
def should_log_notification (method : String) : Bool :=
  method = "roslyn/beginMetadataAsSource" || method = "roslyn/endMetadataAsSource"

/-- `CustomNotificationsMiddleware::convert_open_document`. -/
def convert_open_document (notif : NotificationMessage) : Option NotificationMessage := do
  let params ← notif.params
  let uri ← (params.get "uri").bind Json.asStr
  let text ← (params.get "text").bind Json.asStr
  some { jsonrpc := "2.0", method := "textDocument/didOpen",
         params := some (.obj [("textDocument", .obj
           [("uri", .str uri), ("languageId", .str "csharp"),
            ("version", .num 1), ("text", .str text)])]) }

/-- `CustomNotificationsMiddleware::process_server_message`. -/
def customNotifications_server : MwStep := fun _ st m =>
  match m with
  | .request req =>
    if is_roslyn_custom_notification req.method ∧ should_block_notification req.method then
      (Action.block, st)
    else (Action.cont, st)
  | .notification notif =>
    if is_roslyn_custom_notification notif.method then
      if should_block_notification notif.method then (Action.block, st)
      else if should_log_notification notif.method then (Action.cont, st)
      else if should_convert_notification notif.method then
        match convert_open_document notif with
        | some converted => (Action.replace (.notification converted), st)
        | none => (Action.block, st)
      else (Action.cont, st)
    else (Action.cont, st)
  | .response _ => (Action.cont, st)

/-- A middleware: its two hooks (`Middleware` trait). -/
structure Mw where
  clientStep : MwStep
  serverStep : MwStep

/-- The concrete pipeline built in `main.rs`, in registration order.
`InitializationMiddleware`, `DefinitionLoggerMiddleware` and
`InlayHintsMiddleware` implement both hooks as `Continue`;
`DocumentLifecycleMiddleware` and `DiagnosticsMiddleware` leave the
opposite-direction hook at the trait default. -/
def middlewares : List Mw :=
  [ { clientStep := defaultStep, serverStep := defaultStep },
    { clientStep := documentLifecycle_client, serverStep := defaultStep },
    { clientStep := solutionLoader_client, serverStep := solutionLoader_server },
    { clientStep := defaultStep, serverStep := projectRestore_server },
    { clientStep := defaultStep, serverStep := configuration_server },
    { clientStep := defaultStep, serverStep := capabilityRegistration_server },
    { clientStep := defaultStep, serverStep := defaultStep },
    { clientStep := diagnostics_client, serverStep := diagnostics_server },
    { clientStep := defaultStep, serverStep := defaultStep },
    { clientStep := defaultStep, serverStep := refresh_server },
    { clientStep := defaultStep, serverStep := customNotifications_server } ]

/-- The pipeline fold of `MiddlewarePipeline::process_client_message` /
`process_server_message`, generic in the direction selector: iterate the
hooks over the current message, accumulating injections; `Block` stops
the chain keeping the accumulated injections. -/
def processChain (select : Mw → MwStep) (fs : FileSystem) :
    List Mw → Message → List Message → PipelineState →
    (Option Message × List Message) × PipelineState
  | [], current, responses, st => ((some current, responses), st)
  | mw :: rest, current, responses, st =>
    match select mw fs st current with
    | (Action.cont, st') => processChain select fs rest current responses st'
    | (Action.block, st') => ((none, responses), st')
    | (Action.replace new_msg, st') => processChain select fs rest new_msg responses st'
    | (Action.inject messages, st') =>
      processChain select fs rest current (responses ++ messages) st'
    | (Action.respondAndContinue response, st') =>
      processChain select fs rest current (responses ++ [response]) st'

/-- `MiddlewarePipeline::process_client_message`. -/
def process_client_message (fs : FileSystem) (st : PipelineState) (m : Message) :
    (Option Message × List Message) × PipelineState :=
  processChain Mw.clientStep fs middlewares m [] st

/-- `MiddlewarePipeline::process_server_message`. -/
def process_server_message (fs : FileSystem) (st : PipelineState) (m : Message) :
    (Option Message × List Message) × PipelineState :=
  processChain Mw.serverStep fs middlewares m [] st

/-- Whether a message is a `Request` (`matches!(m, Message::Request(_))`). -/
def Message.isRequest : Message → Bool
  | .request _ => true
  | _ => false

/-- Whether a message is a `Response`. -/
def Message.isResponse : Message → Bool
  | .response _ => true
  | _ => false

/-- Router state: the id mapper, the pipeline state, and the sequences
of messages written so far to the server input and to the client
output (`write_lsp_message` calls, in order). -/
structure RouterState where
  id_mapper : IdMapperState
  pipeline : PipelineState
  serverOut : List Message
  clientOut : List Message

/-- The router state at process start (`Router::new`). -/
def RouterState.new : RouterState :=
  { id_mapper := IdMapperState.new, pipeline := PipelineState.new,
    serverOut := [], clientOut := [] }

/-- `Router::map_client_message`: remap the id of a request via
`map_client_id`; other variants pass unchanged. -/
def map_client_message (idm : IdMapperState) (m : Message) : Message × IdMapperState :=
  match m with
  | .request req =>
    let (server_id, idm') := map_client_id idm req.id
    (.request { req with id := server_id }, idm')
  | other => (other, idm)

/-- `Router::unmap_server_message`: rewrite a response id to the client
id and remove the mapping; `none` models the `Err` (unknown server id)
case; other variants pass unchanged. -/
def unmap_server_message (idm : IdMapperState) (m : Message) : Option (Message × IdMapperState) :=
  match m with
  | .response resp =>
    match get_client_id idm resp.id with
    | some client_id => some (.response { resp with id := client_id }, idm.remove resp.id)
    | none => none
  | other => some (other, idm)

/-- One iteration of `Router::route_client_to_server` for a message read
from the client: run the client pipeline; when blocked, write only the
accumulated injections to the server; otherwise remap the id and write
injections first, then the processed message. -/
def route_client_message (fs : FileSystem) (st : RouterState) (m : Message) : RouterState :=
  match process_client_message fs st.pipeline m with
  | ((none, responses), pst') =>
    { st with pipeline := pst', serverOut := st.serverOut ++ responses }
  | ((some processed, responses), pst') =>
    let (forwarded, idm') := map_client_message st.id_mapper processed
    { st with
      pipeline := pst', id_mapper := idm',
      serverOut := st.serverOut ++ responses ++ [forwarded] }

/-- One iteration of `Router::route_server_to_client` for a message read
from the server: run the server pipeline; injections are written back to
the server; a server request answered by a pipeline-produced response is
written back to the server and nothing reaches the client; otherwise the
message is unmapped (responses with unknown ids are dropped) and written
to the client. -/
def route_server_message (fs : FileSystem) (st : RouterState) (m : Message) : RouterState :=
  match process_server_message fs st.pipeline m with
  | ((none, responses), pst') =>
    { st with pipeline := pst', serverOut := st.serverOut ++ responses }
  | ((some processed, responses), pst') =>
    let st1 := { st with pipeline := pst', serverOut := st.serverOut ++ responses }
    if m.isRequest && processed.isResponse then
      { st1 with serverOut := st1.serverOut ++ [processed] }
    else
      match unmap_server_message st1.id_mapper processed with
      | none => st1
      | some (forwarded, idm') =>
        { st1 with id_mapper := idm', clientOut := st1.clientOut ++ [forwarded] }

/-- Folding `route_server_message` over a sequence of messages read from
the server. -/
def route_server_trace (fs : FileSystem) (st : RouterState) (msgs : List Message) : RouterState :=
  msgs.foldl (route_server_message fs) st

/-- The number of `workspace/_roslyn_restore` requests in a message
sequence. -/
def countRestore (l : List Message) : Nat :=
  l.countP (fun m => m.methodOf = some "workspace/_roslyn_restore")

/-- Number of bindings of `k` in an association list. -/
def idCountKey : List (MessageId × MessageId) → MessageId → Nat
  | [], _ => 0
  | (k2, _) :: tl, k => (if k2 = k then 1 else 0) + idCountKey tl k

/-- A server-sent `workspace/_roslyn_projectNeedsRestore` message (either
variant) carrying the UUID `u`. -/
def IsNeedsRestore (u : String) (m : Message) : Prop :=
  match m with
  | .request req =>
    req.method = "workspace/_roslyn_projectNeedsRestore" ∧ uuidOfParams req.params = some u
  | .notification notif =>
    notif.method = "workspace/_roslyn_projectNeedsRestore" ∧ uuidOfParams notif.params = some u
  | .response _ => False

def prMw : Mw := { clientStep := defaultStep, serverStep := projectRestore_server }

def docMw : Mw := { clientStep := documentLifecycle_client, serverStep := defaultStep }

def slMw : Mw := { clientStep := solutionLoader_client, serverStep := solutionLoader_server }

def serverTail : List Mw :=
  [ { clientStep := defaultStep, serverStep := configuration_server },
    { clientStep := defaultStep, serverStep := capabilityRegistration_server },
    { clientStep := defaultStep, serverStep := defaultStep },
    { clientStep := diagnostics_client, serverStep := diagnostics_server },
    { clientStep := defaultStep, serverStep := defaultStep },
    { clientStep := defaultStep, serverStep := refresh_server },
    { clientStep := defaultStep, serverStep := customNotifications_server } ]

def serverTail2 : List Mw :=
  [ { clientStep := defaultStep, serverStep := capabilityRegistration_server },
    { clientStep := defaultStep, serverStep := defaultStep },
    { clientStep := diagnostics_client, serverStep := diagnostics_server },
    { clientStep := defaultStep, serverStep := defaultStep },
    { clientStep := defaultStep, serverStep := refresh_server },
    { clientStep := defaultStep, serverStep := customNotifications_server } ]

def clientTail3 : List Mw :=
  [ { clientStep := defaultStep, serverStep := projectRestore_server },
    { clientStep := defaultStep, serverStep := configuration_server },
    { clientStep := defaultStep, serverStep := capabilityRegistration_server },
    { clientStep := defaultStep, serverStep := defaultStep },
    { clientStep := diagnostics_client, serverStep := diagnostics_server },
    { clientStep := defaultStep, serverStep := defaultStep },
    { clientStep := defaultStep, serverStep := refresh_server },
    { clientStep := defaultStep, serverStep := customNotifications_server } ]

def fsEmpty : FileSystem := ⟨[], []⟩

def stMapped : RouterState :=
  ⟨⟨2, [(.num 42, .num 1)], [(.num 1, .num 42)]⟩, PipelineState.new, [], []⟩

def fsWs : FileSystem :=
  ⟨[("/ws/app.sln", "Project(\"FAE\") = \"App\", \"App\\App.csproj\", \"G\"")],
   [("/ws", ["/ws/app.sln"])]⟩

def stRooted : RouterState :=
  ⟨IdMapperState.new,
   ⟨[], ⟨some "/ws", false, []⟩, ProjectRestoreState.new, []⟩, [], []⟩

def fsNoSln : FileSystem := ⟨[], [("/ws", [])]⟩

def fsBadSln : FileSystem :=
  ⟨[("/ws/app.sln", "Microsoft Visual Studio Solution File, no project lines")],
   [("/ws", ["/ws/app.sln"])]⟩

def didOpenCsMsg : Message :=
  .notification ⟨"2.0", "textDocument/didOpen", some (.obj [("textDocument", .obj
    [("uri", .str "file:///ws/A.cs")])])⟩

def stPending : RouterState :=
  ⟨IdMapperState.new, ⟨[], ⟨none, false, [didOpenCsMsg]⟩, ProjectRestoreState.new, []⟩, [], []⟩

theorem idLookup_idInsert_self (l : List (MessageId × MessageId)) (k v : MessageId) :
    idLookup (idInsert l k v) k = some v := by
  induction l with
  | nil => simp [idInsert, idLookup]
  | cons hd tl ih =>
    rcases hd with ⟨k2, w⟩
    by_cases h : k2 = k
    · simp [idInsert, h, idLookup]
    · simp [idInsert, h, idLookup, ih]

theorem idLookup_of_countKey_zero (l : List (MessageId × MessageId)) (k : MessageId)
    (h : idCountKey l k = 0) : idLookup l k = none := by
  induction l with
  | nil => simp [idLookup]
  | cons hd tl ih =>
    rcases hd with ⟨k2, w⟩
    by_cases hk : k2 = k
    · simp [idCountKey, hk] at h
    · simp only [idCountKey, hk, if_false] at h
      simp only [idLookup, hk, if_neg, if_false]
      exact ih (by omega)

theorem idLookup_idErase_self (l : List (MessageId × MessageId)) (k : MessageId)
    (h : idCountKey l k ≤ 1) : idLookup (idErase l k) k = none := by
  induction l with
  | nil => simp [idErase, idLookup]
  | cons hd tl ih =>
    rcases hd with ⟨k2, w⟩
    by_cases hk : k2 = k
    · simp only [idErase, if_pos hk]
      simp only [idCountKey, hk, if_pos, if_true] at h
      exact idLookup_of_countKey_zero tl k (by omega)
    · simp only [idErase, if_neg hk, idLookup, hk, if_neg, if_false]
      simp only [idCountKey, hk, if_false] at h
      exact ih (by omega)

theorem pipeline_server_response (fs : FileSystem) (pst : PipelineState) (r : ResponseMessage) :
    process_server_message fs pst (.response r) =
      ((some (.response
          (if memId r.id pst.diagnostic_requests && resultIsNull r.result then
            { r with result := some (.obj [("kind", .str "full"), ("items", .arr [])]) }
          else r)), []),
        if memId r.id pst.diagnostic_requests then
          { pst with diagnostic_requests := removeId r.id pst.diagnostic_requests }
        else pst) := by
  simp only [process_server_message, middlewares, processChain, defaultStep,
    solutionLoader_server, projectRestore_server, configuration_server,
    capabilityRegistration_server, diagnostics_server, refresh_server,
    customNotifications_server]
  cases hmem : memId r.id pst.diagnostic_requests with
  | false => simp [hmem]
  | true =>
    cases hnull : resultIsNull r.result with
    | false => simp [hmem, hnull]
    | true => simp [hmem, hnull]

theorem chain_cons (sel : Mw → MwStep) (fs : FileSystem) (mw : Mw) (rest : List Mw)
    (cur : Message) (acc : List Message) (st : PipelineState) :
    processChain sel fs (mw :: rest) cur acc st =
      match sel mw fs st cur with
      | (Action.cont, st') => processChain sel fs rest cur acc st'
      | (Action.block, st') => ((none, acc), st')
      | (Action.replace new_msg, st') => processChain sel fs rest new_msg acc st'
      | (Action.inject messages, st') => processChain sel fs rest cur (acc ++ messages) st'
      | (Action.respondAndContinue response, st') =>
        processChain sel fs rest cur (acc ++ [response]) st' := rfl

theorem prMw_server : Mw.serverStep prMw = projectRestore_server := rfl

theorem processChain_cons_cont {sel : Mw → MwStep} {fs : FileSystem} {mw : Mw}
    {st st' : PipelineState} {cur : Message} (rest : List Mw) (acc : List Message)
    (h : sel mw fs st cur = (Action.cont, st')) :
    processChain sel fs (mw :: rest) cur acc st = processChain sel fs rest cur acc st' := by
  rw [chain_cons, h]

theorem processChain_cons_block {sel : Mw → MwStep} {fs : FileSystem} {mw : Mw}
    {st st' : PipelineState} {cur : Message} (rest : List Mw) (acc : List Message)
    (h : sel mw fs st cur = (Action.block, st')) :
    processChain sel fs (mw :: rest) cur acc st = ((none, acc), st') := by
  rw [chain_cons, h]

theorem processChain_cons_inject {sel : Mw → MwStep} {fs : FileSystem} {mw : Mw}
    {st st' : PipelineState} {cur : Message} {ms : List Message} (rest : List Mw)
    (acc : List Message) (h : sel mw fs st cur = (Action.inject ms, st')) :
    processChain sel fs (mw :: rest) cur acc st =
      processChain sel fs rest cur (acc ++ ms) st' := by
  rw [chain_cons, h]

theorem processChain_cons_replace {sel : Mw → MwStep} {fs : FileSystem} {mw : Mw}
    {st st' : PipelineState} {cur new_msg : Message} (rest : List Mw) (acc : List Message)
    (h : sel mw fs st cur = (Action.replace new_msg, st')) :
    processChain sel fs (mw :: rest) cur acc st =
      processChain sel fs rest new_msg acc st' := by
  rw [chain_cons, h]

theorem chain_tail_nr_notif (fs : FileSystem) (pst : PipelineState) (j : String)
    (p : Option Json) (acc : List Message) :
    processChain Mw.serverStep fs serverTail
      (.notification ⟨j, "workspace/_roslyn_projectNeedsRestore", p⟩) acc pst =
    ((none, acc), pst) := rfl

theorem chain_tail_rcomplete (fs : FileSystem) (pst : PipelineState) (j : String)
    (p : Option Json) (acc : List Message) :
    processChain Mw.serverStep fs serverTail
      (.notification ⟨j, "workspace/_roslyn_restoreComplete", p⟩) acc pst =
    ((some (.notification ⟨j, "workspace/_roslyn_restoreComplete", p⟩), acc), pst) := rfl

theorem chain_tail_response (fs : FileSystem) (pst : PipelineState) (r : ResponseMessage)
    (acc : List Message) (hnull : resultIsNull r.result = false) :
    processChain Mw.serverStep fs serverTail (.response r) acc pst =
      ((some (.response r), acc),
        if memId r.id pst.diagnostic_requests then
          { pst with diagnostic_requests := removeId r.id pst.diagnostic_requests }
        else pst) := by
  simp only [serverTail, processChain, Mw.serverStep, defaultStep, configuration_server,
    capabilityRegistration_server, diagnostics_server, refresh_server,
    customNotifications_server]
  cases hmem : memId r.id pst.diagnostic_requests with
  | false => simp [hmem]
  | true => simp [hmem, hnull]

theorem head_nr_notif (fs : FileSystem) (pst : PipelineState) (j : String) (p : Option Json) :
    process_server_message fs pst (.notification ⟨j, "workspace/_roslyn_projectNeedsRestore", p⟩) =
      processChain Mw.serverStep fs (prMw :: serverTail)
        (.notification ⟨j, "workspace/_roslyn_projectNeedsRestore", p⟩) [] pst := rfl

theorem head_rcomplete (fs : FileSystem) (pst : PipelineState) (j : String) (p : Option Json) :
    process_server_message fs pst (.notification ⟨j, "workspace/_roslyn_restoreComplete", p⟩) =
      processChain Mw.serverStep fs (prMw :: serverTail)
        (.notification ⟨j, "workspace/_roslyn_restoreComplete", p⟩) [] pst := rfl

theorem head_nr_req (fs : FileSystem) (pst : PipelineState) (j : String) (i : MessageId)
    (p : Option Json) :
    process_server_message fs pst (.request ⟨j, i, "workspace/_roslyn_projectNeedsRestore", p⟩) =
      processChain Mw.serverStep fs (prMw :: serverTail)
        (.request ⟨j, i, "workspace/_roslyn_projectNeedsRestore", p⟩) [] pst := rfl

theorem pr_notif_dup (fs : FileSystem) (pst : PipelineState) (j u : String) (p : Option Json)
    (hu : uuidOfParams p = some u) (hmem : memStr u pst.restore.pending_uuids = true) :
    projectRestore_server fs pst (.notification ⟨j, "workspace/_roslyn_projectNeedsRestore", p⟩) =
      (Action.block, pst) := by
  simp only [projectRestore_server, hu, hmem]
  rfl

theorem pr_notif_inprog (fs : FileSystem) (pst : PipelineState) (j u : String) (p : Option Json)
    (hu : uuidOfParams p = some u) (hmem : memStr u pst.restore.pending_uuids = false)
    (hprog : pst.restore.in_progress = true) :
    projectRestore_server fs pst (.notification ⟨j, "workspace/_roslyn_projectNeedsRestore", p⟩) =
      (Action.block,
        { pst with restore := { pst.restore with pending_uuids := u :: pst.restore.pending_uuids } }) := by
  simp only [projectRestore_server, hu, hmem, hprog]
  rfl

theorem pr_notif_fresh (fs : FileSystem) (pst : PipelineState) (j u : String) (p : Option Json)
    (hu : uuidOfParams p = some u) (hmem : memStr u pst.restore.pending_uuids = false)
    (hprog : pst.restore.in_progress = false) :
    projectRestore_server fs pst (.notification ⟨j, "workspace/_roslyn_projectNeedsRestore", p⟩) =
      (Action.inject [.request
          { jsonrpc := "2.0", id := .num pst.restore.request_id,
            method := "workspace/_roslyn_restore",
            params := match transform_project_paths fs p with
                      | some t => some t
                      | none => p }],
        { pst with restore :=
          { request_id := pst.restore.request_id + 1, in_progress := true,
            pending_uuids := u :: pst.restore.pending_uuids } }) := by
  simp only [projectRestore_server, hu, hmem, hprog]
  rfl

theorem pr_req_answer (fs : FileSystem) (pst : PipelineState) (j : String) (i : MessageId)
    (p : Option Json) :
    projectRestore_server fs pst (.request ⟨j, i, "workspace/_roslyn_projectNeedsRestore", p⟩) =
      (Action.replace (.response (neededRestoreResponse i
        (!((match uuidOfParams p with
            | some u => memStr u pst.restore.pending_uuids
            | none => false) || pst.restore.in_progress)))),
       if (match uuidOfParams p with
           | some u => memStr u pst.restore.pending_uuids
           | none => false) then pst
       else
         { pst with restore :=
           { pst.restore with
             pending_uuids := (match uuidOfParams p with
                               | some u => u :: pst.restore.pending_uuids
                               | none => pst.restore.pending_uuids),
             in_progress := true } }) := by
  simp only [projectRestore_server]
  rcases hu : uuidOfParams p with _ | u
  · cases hprog : pst.restore.in_progress
    · simp only [hu, hprog]
      rfl
    · simp only [hu, hprog]
      rfl
  · cases hmem : memStr u pst.restore.pending_uuids
    · cases hprog : pst.restore.in_progress
      · simp only [hu, hmem, hprog]
        rfl
      · simp only [hu, hmem, hprog]
        rfl
    · simp only [hu, hmem]
      rfl

theorem pr_rcomplete (fs : FileSystem) (pst : PipelineState) (j u : String) (p : Option Json)
    (hu : uuidOfParams p = some u) :
    projectRestore_server fs pst (.notification ⟨j, "workspace/_roslyn_restoreComplete", p⟩) =
      (Action.cont,
        { pst with restore :=
          { pst.restore with
            in_progress := false,
            pending_uuids := removeStr u pst.restore.pending_uuids } }) := by
  simp only [projectRestore_server, hu]
  rfl

theorem route_nr_notif_block (fs : FileSystem) (st : RouterState) (j : String) (p : Option Json)
    (pst2 : PipelineState)
    (h : projectRestore_server fs st.pipeline
          (.notification ⟨j, "workspace/_roslyn_projectNeedsRestore", p⟩) = (Action.block, pst2)) :
    route_server_message fs st (.notification ⟨j, "workspace/_roslyn_projectNeedsRestore", p⟩) =
      { st with pipeline := pst2 } := by
  unfold route_server_message
  rw [head_nr_notif, chain_cons, prMw_server, h]
  simp

theorem route_nr_notif_inject (fs : FileSystem) (st : RouterState) (j : String) (p : Option Json)
    (ms : List Message) (pst2 : PipelineState)
    (h : projectRestore_server fs st.pipeline
          (.notification ⟨j, "workspace/_roslyn_projectNeedsRestore", p⟩) =
          (Action.inject ms, pst2)) :
    route_server_message fs st (.notification ⟨j, "workspace/_roslyn_projectNeedsRestore", p⟩) =
      { st with pipeline := pst2, serverOut := st.serverOut ++ ms } := by
  unfold route_server_message
  rw [head_nr_notif, chain_cons, prMw_server, h]
  simp [chain_tail_nr_notif]

theorem route_nr_req (fs : FileSystem) (st : RouterState) (j : String) (i : MessageId)
    (p : Option Json) (resp : ResponseMessage) (pst2 : PipelineState)
    (h : projectRestore_server fs st.pipeline
          (.request ⟨j, i, "workspace/_roslyn_projectNeedsRestore", p⟩) =
          (Action.replace (.response resp), pst2))
    (hnull : resultIsNull resp.result = false) :
    route_server_message fs st (.request ⟨j, i, "workspace/_roslyn_projectNeedsRestore", p⟩) =
      { st with
        pipeline :=
          if memId resp.id pst2.diagnostic_requests then
            { pst2 with diagnostic_requests := removeId resp.id pst2.diagnostic_requests }
          else pst2,
        serverOut := st.serverOut ++ [.response resp] } := by
  unfold route_server_message
  rw [head_nr_req, chain_cons, prMw_server, h]
  simp [chain_tail_response _ _ _ _ hnull, Message.isRequest, Message.isResponse]

theorem route_rcomplete (fs : FileSystem) (st : RouterState) (j u : String) (p : Option Json)
    (hu : uuidOfParams p = some u) :
    route_server_message fs st (.notification ⟨j, "workspace/_roslyn_restoreComplete", p⟩) =
      { st with
        pipeline :=
          { st.pipeline with restore :=
            { st.pipeline.restore with
              in_progress := false,
              pending_uuids := removeStr u st.pipeline.restore.pending_uuids } },
        clientOut := st.clientOut ++
          [.notification ⟨j, "workspace/_roslyn_restoreComplete", p⟩] } := by
  unfold route_server_message
  rw [head_rcomplete, chain_cons, prMw_server, pr_rcomplete fs st.pipeline j u p hu]
  simp [chain_tail_rcomplete, Message.isRequest, Message.isResponse, unmap_server_message]

theorem memStr_self (u : String) (l : List String) : memStr u (u :: l) = true := by
  simp [memStr]

theorem countRestore_append (a b : List Message) :
    countRestore (a ++ b) = countRestore a + countRestore b := by
  simp [countRestore, List.countP_append]

theorem countRestore_response (r : ResponseMessage) : countRestore [.response r] = 0 := by
  simp [countRestore, List.countP, List.countP.go, Message.methodOf]

theorem countRestore_restore_req (j : String) (i : MessageId) (p : Option Json) :
    countRestore [.request ⟨j, i, "workspace/_roslyn_restore", p⟩] = 1 := by
  simp [countRestore, List.countP, List.countP.go, Message.methodOf]

theorem diag_branch_restore (pst2 : PipelineState) (i : MessageId) :
    ((if memId i pst2.diagnostic_requests then
        { pst2 with diagnostic_requests := removeId i pst2.diagnostic_requests }
      else pst2) : PipelineState).restore = pst2.restore := by
  split <;> rfl

theorem nr_step_mem (fs : FileSystem) (st : RouterState) (m : Message) (u : String)
    (him : IsNeedsRestore u m) :
    memStr u (route_server_message fs st m).pipeline.restore.pending_uuids = true := by
  cases m with
  | response r => exact absurd him (by simp [IsNeedsRestore])
  | request req =>
    obtain ⟨j, i, mth, p⟩ := req
    obtain ⟨hm, hu⟩ := him
    simp only at hm
    subst hm
    rw [route_nr_req fs st j i p _ _ (pr_req_answer fs st.pipeline j i p) (by rfl)]
    simp only [diag_branch_restore, hu]
    by_cases hdup : memStr u st.pipeline.restore.pending_uuids = true
    · simp [hdup]
    · simp only [Bool.not_eq_true] at hdup
      simp [hdup, memStr_self]
  | notification notif =>
    obtain ⟨j, mth, p⟩ := notif
    obtain ⟨hm, hu⟩ := him
    simp only at hm
    subst hm
    by_cases hdup : memStr u st.pipeline.restore.pending_uuids = true
    · rw [route_nr_notif_block fs st j p _ (pr_notif_dup fs st.pipeline j u p hu hdup)]
      simp [hdup]
    · simp only [Bool.not_eq_true] at hdup
      cases hprog : st.pipeline.restore.in_progress with
      | true =>
        rw [route_nr_notif_block fs st j p _ (pr_notif_inprog fs st.pipeline j u p hu hdup hprog)]
        simp [memStr_self]
      | false =>
        rw [route_nr_notif_inject fs st j p _ _
          (pr_notif_fresh fs st.pipeline j u p hu hdup hprog)]
        simp [memStr_self]

theorem nr_step_count_suppressed (fs : FileSystem) (st : RouterState) (m : Message) (u : String)
    (him : IsNeedsRestore u m)
    (hmem : memStr u st.pipeline.restore.pending_uuids = true) :
    countRestore (route_server_message fs st m).serverOut = countRestore st.serverOut := by
  cases m with
  | response r => exact absurd him (by simp [IsNeedsRestore])
  | request req =>
    obtain ⟨j, i, mth, p⟩ := req
    obtain ⟨hm, hu⟩ := him
    simp only at hm
    subst hm
    rw [route_nr_req fs st j i p _ _ (pr_req_answer fs st.pipeline j i p) (by rfl)]
    simp [countRestore_append, countRestore_response]
  | notification notif =>
    obtain ⟨j, mth, p⟩ := notif
    obtain ⟨hm, hu⟩ := him
    simp only at hm
    subst hm
    rw [route_nr_notif_block fs st j p _ (pr_notif_dup fs st.pipeline j u p hu hmem)]

theorem nr_step_count_le (fs : FileSystem) (st : RouterState) (m : Message) (u : String)
    (him : IsNeedsRestore u m) :
    countRestore (route_server_message fs st m).serverOut ≤ countRestore st.serverOut + 1 := by
  cases m with
  | response r => exact absurd him (by simp [IsNeedsRestore])
  | request req =>
    obtain ⟨j, i, mth, p⟩ := req
    obtain ⟨hm, hu⟩ := him
    simp only at hm
    subst hm
    rw [route_nr_req fs st j i p _ _ (pr_req_answer fs st.pipeline j i p) (by rfl)]
    simp [countRestore_append, countRestore_response]
  | notification notif =>
    obtain ⟨j, mth, p⟩ := notif
    obtain ⟨hm, hu⟩ := him
    simp only at hm
    subst hm
    by_cases hdup : memStr u st.pipeline.restore.pending_uuids = true
    · rw [route_nr_notif_block fs st j p _ (pr_notif_dup fs st.pipeline j u p hu hdup)]
      simp
    · simp only [Bool.not_eq_true] at hdup
      cases hprog : st.pipeline.restore.in_progress with
      | true =>
        rw [route_nr_notif_block fs st j p _ (pr_notif_inprog fs st.pipeline j u p hu hdup hprog)]
        simp
      | false =>
        rw [route_nr_notif_inject fs st j p _ _
          (pr_notif_fresh fs st.pipeline j u p hu hdup hprog)]
        simp [countRestore_append, countRestore_restore_req]

theorem nr_trace_suppressed (fs : FileSystem) (u : String) (msgs : List Message) :
    ∀ st : RouterState, (∀ m ∈ msgs, IsNeedsRestore u m) →
    memStr u st.pipeline.restore.pending_uuids = true →
    countRestore (route_server_trace fs st msgs).serverOut = countRestore st.serverOut := by
  induction msgs with
  | nil => intro st _ _; rfl
  | cons m rest ih =>
    intro st hall hmem
    have hstep : route_server_trace fs st (m :: rest) =
        route_server_trace fs (route_server_message fs st m) rest := rfl
    rw [hstep, ih _ (fun x hx => hall x (List.mem_cons_of_mem m hx))
        (nr_step_mem fs st m u (hall m (List.mem_cons_self m rest)))]
    exact nr_step_count_suppressed fs st m u (hall m (List.mem_cons_self m rest)) hmem

theorem nr_trace_le (fs : FileSystem) (st : RouterState) (msgs : List Message) (u : String)
    (hall : ∀ m ∈ msgs, IsNeedsRestore u m) :
    countRestore (route_server_trace fs st msgs).serverOut ≤ countRestore st.serverOut + 1 := by
  cases msgs with
  | nil => simp [route_server_trace, List.foldl]
  | cons m rest =>
    have hstep : route_server_trace fs st (m :: rest) =
        route_server_trace fs (route_server_message fs st m) rest := rfl
    rw [hstep, nr_trace_suppressed fs u rest _
        (fun x hx => hall x (List.mem_cons_of_mem m hx))
        (nr_step_mem fs st m u (hall m (List.mem_cons_self m rest)))]
    exact nr_step_count_le fs st m u (hall m (List.mem_cons_self m rest))

theorem head_config (fs : FileSystem) (pst : PipelineState) (j : String) (i : MessageId)
    (p : Option Json) :
    process_server_message fs pst (.request ⟨j, i, "workspace/configuration", p⟩) =
      processChain Mw.serverStep fs serverTail
        (.request ⟨j, i, "workspace/configuration", p⟩) [] pst := rfl

theorem config_server_answer (fs : FileSystem) (pst : PipelineState) (j : String)
    (i : MessageId) (p : Json) (items : List Json)
    (hitems : (p.get "items").bind Json.asArr = some items) :
    configuration_server fs pst (.request ⟨j, i, "workspace/configuration", some p⟩) =
      (Action.replace (.response
        { jsonrpc := "2.0", id := i, result := some (.arr (items.map configItemAnswer)),
          error := none }), pst) := by
  simp only [configuration_server, handle_configuration_request, Option.bind_eq_bind, hitems]
  rfl

theorem chain_tail2_response (fs : FileSystem) (pst : PipelineState) (r : ResponseMessage)
    (acc : List Message) (hnull : resultIsNull r.result = false) :
    processChain Mw.serverStep fs serverTail2 (.response r) acc pst =
      ((some (.response r), acc),
        if memId r.id pst.diagnostic_requests then
          { pst with diagnostic_requests := removeId r.id pst.diagnostic_requests }
        else pst) := by
  simp only [serverTail2, processChain, Mw.serverStep, defaultStep,
    capabilityRegistration_server, diagnostics_server, refresh_server,
    customNotifications_server]
  cases hmem : memId r.id pst.diagnostic_requests with
  | false => simp [hmem]
  | true => simp [hmem, hnull]

theorem head_client (fs : FileSystem) (pst : PipelineState) (m : Message) :
    process_client_message fs pst m =
      processChain Mw.clientStep fs (docMw :: slMw :: clientTail3) m [] pst := rfl

theorem chain_client_tail_notif (fs : FileSystem) (pst : PipelineState)
    (n : NotificationMessage) (acc : List Message) :
    processChain Mw.clientStep fs clientTail3 (.notification n) acc pst =
      ((some (.notification n), acc), pst) := rfl

theorem docLC_didOpen (fs : FileSystem) (pst : PipelineState) (j : String) (p : Json) :
    documentLifecycle_client fs pst (.notification ⟨j, "textDocument/didOpen", some p⟩) =
      (Action.cont, { pst with opened_documents :=
        match parseDidOpenParams p with
        | some uri => uri :: pst.opened_documents
        | none => pst.opened_documents }) := by
  rcases h : parseDidOpenParams p with _ | uri
  · simp [documentLifecycle_client, h]
  · simp [documentLifecycle_client, h]

theorem slClient_didOpen_block (fs : FileSystem) (pst : PipelineState) (j uri : String)
    (p : Json)
    (hget : (p.get "textDocument").bind (fun td => (td.get "uri").bind Json.asStr) = some uri)
    (hcs : strEndsWith uri ".cs" = true)
    (hopen : pst.solution.solution_opened = false) :
    solutionLoader_client fs pst (.notification ⟨j, "textDocument/didOpen", some p⟩) =
      (Action.block, { pst with solution := { pst.solution with pending_cs_files :=
        pst.solution.pending_cs_files ++
          [.notification ⟨j, "textDocument/didOpen", some p⟩] } }) := by
  simp only [solutionLoader_client, extract_workspace_root, hget, hcs, hopen]
  rfl

theorem head_pic (fs : FileSystem) (pst : PipelineState) (j : String) (o : Option Json) :
    process_server_message fs pst
        (.notification ⟨j, "workspace/projectInitializationComplete", o⟩) =
      processChain Mw.serverStep fs (slMw :: prMw :: serverTail)
        (.notification ⟨j, "workspace/projectInitializationComplete", o⟩) [] pst := rfl

theorem chain_tail_pic (fs : FileSystem) (pst : PipelineState) (j : String) (o : Option Json)
    (acc : List Message) :
    processChain Mw.serverStep fs (prMw :: serverTail)
        (.notification ⟨j, "workspace/projectInitializationComplete", o⟩) acc pst =
      ((some (.notification ⟨j, "workspace/projectInitializationComplete", o⟩), acc), pst) := rfl

theorem slServer_pic (fs : FileSystem) (pst : PipelineState) (j : String) (o : Option Json)
    (hpend : pst.solution.pending_cs_files.isEmpty = false) :
    solutionLoader_server fs pst
        (.notification ⟨j, "workspace/projectInitializationComplete", o⟩) =
      (Action.inject pst.solution.pending_cs_files,
        { pst with solution := { pst.solution with pending_cs_files := [] } }) := by
  simp only [solutionLoader_server, hpend]
  rfl

theorem docLC_initialized (fs : FileSystem) (pst : PipelineState) (j : String)
    (o : Option Json) :
    documentLifecycle_client fs pst (.notification ⟨j, "initialized", o⟩) =
      (Action.cont, pst) := rfl

theorem slClient_initialized (fs : FileSystem) (pst : PipelineState) (j : String)
    (o : Option Json) (root sp : String)
    (hroot : pst.solution.workspace_root = some root)
    (hfind : find_solution_file fs root = some sp)
    (hval : validate_solution fs sp = true) :
    solutionLoader_client fs pst (.notification ⟨j, "initialized", o⟩) =
      (Action.inject (create_solution_and_project_notifications fs sp),
        { pst with solution := { pst.solution with solution_opened := true } }) := by
  simp only [solutionLoader_client, extract_workspace_root, hroot, hfind, hval]
  rfl

theorem slClient_initialized_noroot (fs : FileSystem) (pst : PipelineState) (j : String)
    (o : Option Json) (hroot : pst.solution.workspace_root = none) :
    solutionLoader_client fs pst (.notification ⟨j, "initialized", o⟩) =
      (Action.cont, pst) := by
  simp only [solutionLoader_client, extract_workspace_root, hroot]
  rfl

theorem slClient_initialized_nosln (fs : FileSystem) (pst : PipelineState) (j : String)
    (o : Option Json) (root : String)
    (hroot : pst.solution.workspace_root = some root)
    (hfind : find_solution_file fs root = none) :
    solutionLoader_client fs pst (.notification ⟨j, "initialized", o⟩) =
      (Action.cont, pst) := by
  simp only [solutionLoader_client, extract_workspace_root, hroot, hfind]
  rfl

theorem slClient_initialized_invalid (fs : FileSystem) (pst : PipelineState) (j : String)
    (o : Option Json) (root sp : String)
    (hroot : pst.solution.workspace_root = some root)
    (hfind : find_solution_file fs root = some sp)
    (hval : validate_solution fs sp = false) :
    solutionLoader_client fs pst (.notification ⟨j, "initialized", o⟩) =
      (Action.cont, pst) := by
  simp only [solutionLoader_client, extract_workspace_root, hroot, hfind, hval]
  rfl

theorem route_initialized_cont (fs : FileSystem) (st : RouterState) (j : String)
    (o : Option Json)
    (h : solutionLoader_client fs st.pipeline (.notification ⟨j, "initialized", o⟩) =
      (Action.cont, st.pipeline)) :
    route_client_message fs st (.notification ⟨j, "initialized", o⟩) =
      { st with serverOut := st.serverOut ++ [.notification ⟨j, "initialized", o⟩] } := by
  unfold route_client_message
  rw [head_client,
    processChain_cons_cont _ _ (docLC_initialized fs st.pipeline j o),
    processChain_cons_cont _ _ h,
    chain_client_tail_notif]
  simp [map_client_message]

/-- Claim C1: the first server id the mapper allocates is 1; a client
request the router forwards gets its id remapped to the freshly allocated
integer server id, recording the pair; and a later server response
carrying that server id is written to the client bearing the original
client id, with the id-mapping entry for the pair removed at that point
(the count hypotheses state the key-uniqueness `DashMap` guarantees). -/
theorem c1_round_trip_id_mapping :
    (∀ C : MessageId, (map_client_id IdMapperState.new C).1 = MessageId.num 1)
    ∧ (∀ (fs : FileSystem) (st : RouterState) (req processed : RequestMessage)
        (injs : List Message) (pst' : PipelineState),
        process_client_message fs st.pipeline (.request req) =
          ((some (.request processed), injs), pst') →
        idLookup st.id_mapper.client_to_server processed.id = none →
        (route_client_message fs st (.request req)).serverOut =
          st.serverOut ++ injs ++
            [.request { processed with id := .num st.id_mapper.next_id }]
        ∧ get_client_id (route_client_message fs st (.request req)).id_mapper
            (.num st.id_mapper.next_id) = some processed.id)
    ∧ (∀ (fs : FileSystem) (st : RouterState) (resp : ResponseMessage) (C : MessageId),
        get_client_id st.id_mapper resp.id = some C →
        ∃ r' : ResponseMessage,
          (route_server_message fs st (.response resp)).clientOut =
            st.clientOut ++ [.response r']
          ∧ r'.id = C
          ∧ (route_server_message fs st (.response resp)).serverOut = st.serverOut
          ∧ (idCountKey st.id_mapper.server_to_client resp.id ≤ 1 →
              get_client_id (route_server_message fs st (.response resp)).id_mapper resp.id
                = none)
          ∧ (idCountKey st.id_mapper.client_to_server C ≤ 1 →
              idLookup (route_server_message fs st (.response resp)).id_mapper.client_to_server
                C = none)) := by
  refine ⟨fun C => rfl, ?_, ?_⟩
  · intro fs st req processed injs pst' hpipe hfresh
    unfold route_client_message
    rw [hpipe]
    simp only [map_client_message, map_client_id, hfresh]
    exact ⟨trivial, by simp [get_client_id, idLookup_idInsert_self]⟩
  · intro fs st resp C hlook
    have hlook' : idLookup st.id_mapper.server_to_client resp.id = some C := hlook
    unfold route_server_message
    rw [pipeline_server_response]
    set rw0 := (if memId resp.id st.pipeline.diagnostic_requests && resultIsNull resp.result then
      { resp with result := some (.obj [("kind", Json.str "full"), ("items", Json.arr [])]) }
    else resp) with hrw0
    have hid : rw0.id = resp.id := by
      by_cases h : (memId resp.id st.pipeline.diagnostic_requests && resultIsNull resp.result) = true
      · simp [hrw0, h]
      · simp [hrw0, h]
    simp only [Message.isRequest, Message.isResponse, Bool.false_and, Bool.false_eq_true,
      if_false, unmap_server_message, hid, hlook, List.append_nil]
    refine ⟨{ rw0 with id := C }, ?_, ?_, ?_, ?_, ?_⟩
    · rfl
    · rfl
    · trivial
    · intro hcount
      simp only [IdMapperState.remove, hid, hlook', get_client_id]
      exact idLookup_idErase_self _ _ hcount
    · intro hcount
      simp only [IdMapperState.remove, hid, hlook', get_client_id]
      exact idLookup_idErase_self _ _ hcount

/-- Concrete instantiation of `c1_round_trip_id_mapping`: a hover request
with client id 42 is forwarded with server id 1, and the response with
server id 1 comes back to the client with id 42, the mapping removed. -/
theorem c1_round_trip_id_mapping_witness :
    idLookup (IdMapperState.new).client_to_server (.num 42) = none
    ∧ ((route_client_message fsEmpty RouterState.new
          (.request ⟨"2.0", .num 42, "textDocument/hover", none⟩)).serverOut =
        RouterState.new.serverOut ++ [] ++
          [.request { jsonrpc := "2.0", id := .num RouterState.new.id_mapper.next_id,
                      method := "textDocument/hover", params := none }]
        ∧ get_client_id (route_client_message fsEmpty RouterState.new
            (.request ⟨"2.0", .num 42, "textDocument/hover", none⟩)).id_mapper
            (.num RouterState.new.id_mapper.next_id) = some (.num 42))
    ∧ (∃ r' : ResponseMessage,
        (route_server_message fsEmpty stMapped
            (.response ⟨"2.0", .num 1, some (.str "ok"), none⟩)).clientOut =
          stMapped.clientOut ++ [.response r']
        ∧ r'.id = .num 42
        ∧ get_client_id (route_server_message fsEmpty stMapped
            (.response ⟨"2.0", .num 1, some (.str "ok"), none⟩)).id_mapper (.num 1) = none
        ∧ idLookup (route_server_message fsEmpty stMapped
            (.response ⟨"2.0", .num 1, some (.str "ok"), none⟩)).id_mapper.client_to_server
            (.num 42) = none) := by
  refine ⟨rfl, ?_, ?_⟩
  · exact c1_round_trip_id_mapping.2.1 fsEmpty RouterState.new
      ⟨"2.0", .num 42, "textDocument/hover", none⟩
      ⟨"2.0", .num 42, "textDocument/hover", none⟩ [] PipelineState.new rfl rfl
  · obtain ⟨r', h1, h2, _h3, h4, h5⟩ := c1_round_trip_id_mapping.2.2 fsEmpty stMapped
      ⟨"2.0", .num 1, some (.str "ok"), none⟩ (.num 42) rfl
    exact ⟨r', h1, h2, h4 (by decide), h5 (by decide)⟩

/-- Claim C2: for every message read from the client, the messages written
to the server input are exactly the pipeline's accumulated injections in
order, followed by the id-remapped current message precisely when no
interceptor blocked it; when blocked, exactly the injections are written
and the original is not. -/
theorem c2_injection_ordering (fs : FileSystem) (st : RouterState) (m : Message) :
    (route_client_message fs st m).serverOut =
      st.serverOut ++ (process_client_message fs st.pipeline m).1.2 ++
        (match (process_client_message fs st.pipeline m).1.1 with
         | some cur => [(map_client_message st.id_mapper cur).1]
         | none => []) := by
  unfold route_client_message
  rcases h : process_client_message fs st.pipeline m with ⟨⟨cur, responses⟩, pst'⟩
  cases cur with
  | none => simp
  | some c => simp

/-- Claim C3: when the server-direction pipeline yields a Response as the
current message for a server-originated request, the router writes that
response back to the server (after the injections) and writes nothing to
the client; and the capability-registration middleware produces such a
Response, with null result and the request id, for every
`client/registerCapability` request. -/
theorem c3_local_answers_stay_local :
    (∀ (fs : FileSystem) (st : RouterState) (req : RequestMessage)
        (processed : ResponseMessage) (injs : List Message) (pst' : PipelineState),
      process_server_message fs st.pipeline (.request req) =
        ((some (.response processed), injs), pst') →
      (route_server_message fs st (.request req)).serverOut =
        st.serverOut ++ injs ++ [.response processed]
      ∧ (route_server_message fs st (.request req)).clientOut = st.clientOut)
    ∧ (∀ (fs : FileSystem) (pst : PipelineState) (req : RequestMessage),
        req.method = "client/registerCapability" →
        capabilityRegistration_server fs pst (.request req) =
          (Action.replace (.response ⟨"2.0", req.id, some Json.null, none⟩), pst)) := by
  constructor
  · intro fs st req processed injs pst' h
    unfold route_server_message
    rw [h]
    simp [Message.isRequest, Message.isResponse]
  · intro fs pst req h
    simp [capabilityRegistration_server, h]

/-- Concrete instantiation of `c3_local_answers_stay_local` on scenario
S3: `client/registerCapability` with id 9 is answered `{id: 9, result:
null}` toward the server; the client sees nothing. -/
theorem c3_local_answers_stay_local_witness :
    process_server_message fsEmpty PipelineState.new
        (.request ⟨"2.0", .num 9, "client/registerCapability",
          some (.obj [("registrations", .arr [])])⟩) =
      ((some (.response ⟨"2.0", .num 9, some Json.null, none⟩), []), PipelineState.new)
    ∧ ((route_server_message fsEmpty RouterState.new
          (.request ⟨"2.0", .num 9, "client/registerCapability",
            some (.obj [("registrations", .arr [])])⟩)).serverOut =
        RouterState.new.serverOut ++ [] ++ [.response ⟨"2.0", .num 9, some Json.null, none⟩]
        ∧ (route_server_message fsEmpty RouterState.new
            (.request ⟨"2.0", .num 9, "client/registerCapability",
              some (.obj [("registrations", .arr [])])⟩)).clientOut =
          RouterState.new.clientOut)
    ∧ capabilityRegistration_server fsEmpty PipelineState.new
        (.request ⟨"2.0", .num 9, "client/registerCapability",
          some (.obj [("registrations", .arr [])])⟩) =
      (Action.replace (.response ⟨"2.0", .num 9, some Json.null, none⟩), PipelineState.new) := by
  refine ⟨rfl, ?_, ?_⟩
  · exact c3_local_answers_stay_local.1 fsEmpty RouterState.new
      ⟨"2.0", .num 9, "client/registerCapability", some (.obj [("registrations", .arr [])])⟩
      ⟨"2.0", .num 9, some Json.null, none⟩ [] PipelineState.new rfl
  · exact c3_local_answers_stay_local.2 fsEmpty PipelineState.new
      ⟨"2.0", .num 9, "client/registerCapability", some (.obj [("registrations", .arr [])])⟩ rfl

/-- Claim C4: over any sequence of server `projectNeedsRestore` messages
bearing one UUID (no intervening `restoreComplete`), at most one
`workspace/_roslyn_restore` request reaches the server input; from the
initial state the first injected restore request carries id 90000; and
after a `restoreComplete` bearing the UUID, a notification with a fresh
UUID triggers a new injection. -/
theorem c4_restore_dedup :
    (∀ (fs : FileSystem) (st : RouterState) (msgs : List Message) (u : String),
      (∀ m ∈ msgs, IsNeedsRestore u m) →
      countRestore (route_server_trace fs st msgs).serverOut ≤ countRestore st.serverOut + 1)
    ∧ (∀ (fs : FileSystem) (st : RouterState) (j u : String) (p : Option Json),
        st.pipeline.restore = ProjectRestoreState.new →
        uuidOfParams p = some u →
        (route_server_message fs st
            (.notification ⟨j, "workspace/_roslyn_projectNeedsRestore", p⟩)).serverOut =
          st.serverOut ++ [.request
            { jsonrpc := "2.0", id := .num 90000, method := "workspace/_roslyn_restore",
              params := match transform_project_paths fs p with
                        | some t => some t
                        | none => p }])
    ∧ (∀ (fs : FileSystem) (st : RouterState) (j1 j2 j3 j4 u u2 : String)
        (p1 pc p2 : Option Json),
        st.pipeline.restore = ProjectRestoreState.new →
        uuidOfParams p1 = some u → uuidOfParams pc = some u → uuidOfParams p2 = some u2 →
        countRestore (route_server_trace fs st
          [.notification ⟨j1, "workspace/_roslyn_projectNeedsRestore", p1⟩,
           .notification ⟨j2, "workspace/_roslyn_projectNeedsRestore", p1⟩,
           .notification ⟨j3, "workspace/_roslyn_restoreComplete", pc⟩,
           .notification ⟨j4, "workspace/_roslyn_projectNeedsRestore", p2⟩]).serverOut =
          countRestore st.serverOut + 2) := by
  refine ⟨fun fs st msgs u hall => nr_trace_le fs st msgs u hall, ?_, ?_⟩
  · intro fs st j u p hnew hu
    obtain ⟨idm, pst, so, co⟩ := st
    obtain ⟨od, sol, rst, diag⟩ := pst
    simp only at hnew
    subst hnew
    rw [route_nr_notif_inject _ _ _ _ _ _
      (pr_notif_fresh _ _ j u p hu (by rfl) (by rfl))]
    rfl
  · intro fs st j1 j2 j3 j4 u u2 p1 pc p2 hnew hu1 huc hu2
    obtain ⟨idm, pst, so, co⟩ := st
    obtain ⟨od, sol, rst, diag⟩ := pst
    simp only at hnew
    subst hnew
    have hstep : ∀ (a b c d : Message) (st0 : RouterState),
        route_server_trace fs st0 [a, b, c, d] =
          route_server_message fs (route_server_message fs
            (route_server_message fs (route_server_message fs st0 a) b) c) d := by
      intro a b c d st0; rfl
    rw [hstep]
    rw [route_nr_notif_inject _ _ _ _ _ _
      (pr_notif_fresh _ _ j1 u p1 hu1 (by rfl) (by rfl))]
    rw [route_nr_notif_block _ _ _ _ _
      (pr_notif_dup _ _ j2 u p1 hu1 (by simp [memStr_self]))]
    rw [route_rcomplete _ _ j3 u pc huc]
    rw [route_nr_notif_inject _ _ _ _ _ _
      (pr_notif_fresh _ _ j4 u2 p2 hu2 (by simp [removeStr, memStr]) (by rfl))]
    show countRestore ((so ++ _) ++ _) = countRestore so + 2
    rw [countRestore_append, countRestore_append, countRestore_restore_req,
      countRestore_restore_req]

/-- Concrete instantiation of `c4_restore_dedup`: two same-UUID
notifications inject once (id 90000); after `restoreComplete`, a fresh
UUID injects again. -/
theorem c4_restore_dedup_witness :
    (∀ m ∈ [Message.notification ⟨"2.0", "workspace/_roslyn_projectNeedsRestore",
        some (.obj [("UUID", .str "u1")])⟩,
      Message.notification ⟨"2.0", "workspace/_roslyn_projectNeedsRestore",
        some (.obj [("UUID", .str "u1")])⟩], IsNeedsRestore "u1" m)
    ∧ countRestore (route_server_trace fsEmpty RouterState.new
        [Message.notification ⟨"2.0", "workspace/_roslyn_projectNeedsRestore",
          some (.obj [("UUID", .str "u1")])⟩,
         Message.notification ⟨"2.0", "workspace/_roslyn_projectNeedsRestore",
          some (.obj [("UUID", .str "u1")])⟩]).serverOut ≤
      countRestore RouterState.new.serverOut + 1
    ∧ (route_server_message fsEmpty RouterState.new
        (.notification ⟨"2.0", "workspace/_roslyn_projectNeedsRestore",
          some (.obj [("UUID", .str "u1")])⟩)).serverOut =
      RouterState.new.serverOut ++ [.request
        { jsonrpc := "2.0", id := .num 90000, method := "workspace/_roslyn_restore",
          params := match transform_project_paths fsEmpty
                      (some (.obj [("UUID", .str "u1")])) with
                    | some t => some t
                    | none => some (.obj [("UUID", .str "u1")]) }]
    ∧ countRestore (route_server_trace fsEmpty RouterState.new
        [.notification ⟨"2.0", "workspace/_roslyn_projectNeedsRestore",
          some (.obj [("UUID", .str "u1")])⟩,
         .notification ⟨"2.0", "workspace/_roslyn_projectNeedsRestore",
          some (.obj [("UUID", .str "u1")])⟩,
         .notification ⟨"2.0", "workspace/_roslyn_restoreComplete",
          some (.obj [("UUID", .str "u1")])⟩,
         .notification ⟨"2.0", "workspace/_roslyn_projectNeedsRestore",
          some (.obj [("UUID", .str "u2")])⟩]).serverOut =
      countRestore RouterState.new.serverOut + 2 := by
  have hall : ∀ m ∈ [Message.notification ⟨"2.0", "workspace/_roslyn_projectNeedsRestore",
      some (.obj [("UUID", .str "u1")])⟩,
    Message.notification ⟨"2.0", "workspace/_roslyn_projectNeedsRestore",
      some (.obj [("UUID", .str "u1")])⟩], IsNeedsRestore "u1" m := by
    intro m hm
    rcases List.mem_cons.mp hm with h | h
    · subst h; exact ⟨rfl, rfl⟩
    · rw [List.mem_singleton] at h; subst h; exact ⟨rfl, rfl⟩
  refine ⟨hall, c4_restore_dedup.1 fsEmpty RouterState.new _ "u1" hall, ?_, ?_⟩
  · exact c4_restore_dedup.2.1 fsEmpty RouterState.new "2.0" "u1"
      (some (.obj [("UUID", .str "u1")])) rfl rfl
  · exact c4_restore_dedup.2.2 fsEmpty RouterState.new "2.0" "2.0" "2.0" "2.0" "u1" "u2"
      (some (.obj [("UUID", .str "u1")])) (some (.obj [("UUID", .str "u1")]))
      (some (.obj [("UUID", .str "u2")])) rfl rfl rfl rfl

/-- Claim C5, evaluated at the failing input: the diagnostics middleware
remembers the client-space id 42 of a `textDocument/diagnostic` request,
but the matching server response arrives bearing the server-space id 1
(the pipeline runs before `unmap_server_message`), so the absent result
is NOT rewritten to `{kind: "full", items: []}` and the remembered id is
never removed — the response reaches the client with id 42 and no
result, contradicting the claim. -/
theorem c5_diagnostics_normalizer_code_behavior :
    (route_server_message ⟨[], []⟩
      (route_client_message ⟨[], []⟩ RouterState.new
        (.request ⟨"2.0", .num 42, "textDocument/diagnostic", none⟩))
      (.response ⟨"2.0", .num 1, none, none⟩)).clientOut =
        [.response ⟨"2.0", .num 42, none, none⟩]
    ∧ (route_server_message ⟨[], []⟩
      (route_client_message ⟨[], []⟩ RouterState.new
        (.request ⟨"2.0", .num 42, "textDocument/diagnostic", none⟩))
      (.response ⟨"2.0", .num 1, none, none⟩)).pipeline.diagnostic_requests = [.num 42] := by
  exact ⟨rfl, rfl⟩

/-- Claim C6 counterexample: the initialize request names
`initializationOptions.solution = "/other/real.sln"`, a solution file
that exists and parses (`validate_solution` accepts it), yet on
`initialized` nothing is injected because the workspace-root directory
listing has no `.sln` entry — the loader never reads
`initializationOptions`, refuting the claim at this input. -/
theorem c6_solution_loader_counterexample :
    validate_solution
      ⟨[("/other/real.sln", "Project(\"A\") = \"Lib\", \"Lib/Lib.csproj\", \"G\"")],
       [("/ws", [])]⟩ "/other/real.sln" = true
    ∧ (route_client_message
        ⟨[("/other/real.sln", "Project(\"A\") = \"Lib\", \"Lib/Lib.csproj\", \"G\"")],
         [("/ws", [])]⟩
        (route_client_message
          ⟨[("/other/real.sln", "Project(\"A\") = \"Lib\", \"Lib/Lib.csproj\", \"G\"")],
           [("/ws", [])]⟩
          RouterState.new
          (.request ⟨"2.0", .num 3, "initialize", some (.obj
            [("rootUri", .str "file:///ws"),
             ("initializationOptions", .obj [("solution", .str "/other/real.sln")])])⟩))
        (.notification ⟨"2.0", "initialized", none⟩)).serverOut =
      [.request ⟨"2.0", .num 1, "initialize", some (.obj
          [("rootUri", .str "file:///ws"),
           ("initializationOptions", .obj [("solution", .str "/other/real.sln")])])⟩,
       .notification ⟨"2.0", "initialized", none⟩] := by
  exact ⟨rfl, rfl⟩

/-- Claim C6 (amended): the solution loader stores the workspace root
extracted from the initialize request (`rootUri` stripped of `file://`,
else `rootPath`), ignoring `initializationOptions`; on the client's
`initialized` notification, exactly when scanning the workspace root and
its immediate subdirectories finds a `.sln` file whose content has at
least one `Project("` line, it marks the solution opened and injects
`solution/open` followed by `project/open` (when any `.csproj` relative
path, backslashes normalized, was extracted) before the forwarded
`initialized` notification.  Both directions of the "exactly when" are
stated: when no workspace root was stored, no `.sln` is found, or
validation fails, the router forwards the `initialized` notification
alone, injecting nothing and leaving the whole state — in particular the
solution-opened flag — unchanged. -/
theorem c6_solution_loader_amended :
    (∀ (fs : FileSystem) (pst : PipelineState) (req : RequestMessage),
      solutionLoader_client fs pst (.request req) =
        (Action.cont, { pst with solution :=
          match extract_workspace_root (.request req) with
          | some root => { pst.solution with workspace_root := some root }
          | none => pst.solution }))
    ∧ (∀ (fs : FileSystem) (st : RouterState) (j : String) (o : Option Json) (root sp : String),
        st.pipeline.solution.workspace_root = some root →
        find_solution_file fs root = some sp →
        validate_solution fs sp = true →
        (route_client_message fs st (.notification ⟨j, "initialized", o⟩)).serverOut =
          st.serverOut ++ create_solution_and_project_notifications fs sp ++
            [.notification ⟨j, "initialized", o⟩]
        ∧ (route_client_message fs st
            (.notification ⟨j, "initialized", o⟩)).pipeline.solution.solution_opened = true)
    ∧ (∀ (fs : FileSystem) (st : RouterState) (j : String) (o : Option Json),
        st.pipeline.solution.workspace_root = none →
        route_client_message fs st (.notification ⟨j, "initialized", o⟩) =
          { st with serverOut := st.serverOut ++ [.notification ⟨j, "initialized", o⟩] })
    ∧ (∀ (fs : FileSystem) (st : RouterState) (j : String) (o : Option Json) (root : String),
        st.pipeline.solution.workspace_root = some root →
        find_solution_file fs root = none →
        route_client_message fs st (.notification ⟨j, "initialized", o⟩) =
          { st with serverOut := st.serverOut ++ [.notification ⟨j, "initialized", o⟩] })
    ∧ (∀ (fs : FileSystem) (st : RouterState) (j : String) (o : Option Json) (root sp : String),
        st.pipeline.solution.workspace_root = some root →
        find_solution_file fs root = some sp →
        validate_solution fs sp = false →
        route_client_message fs st (.notification ⟨j, "initialized", o⟩) =
          { st with serverOut := st.serverOut ++ [.notification ⟨j, "initialized", o⟩] }) := by
  refine ⟨fun fs pst req => rfl, ?_, ?_, ?_, ?_⟩
  · intro fs st j o root sp hroot hfind hval
    unfold route_client_message
    rw [head_client,
      processChain_cons_cont _ _ (docLC_initialized fs st.pipeline j o),
      processChain_cons_inject _ _
        (slClient_initialized fs st.pipeline j o root sp hroot hfind hval),
      chain_client_tail_notif]
    simp [map_client_message]
  · intro fs st j o hroot
    exact route_initialized_cont fs st j o
      (slClient_initialized_noroot fs st.pipeline j o hroot)
  · intro fs st j o root hroot hfind
    exact route_initialized_cont fs st j o
      (slClient_initialized_nosln fs st.pipeline j o root hroot hfind)
  · intro fs st j o root sp hroot hfind hval
    exact route_initialized_cont fs st j o
      (slClient_initialized_invalid fs st.pipeline j o root sp hroot hfind hval)

/-- Concrete instantiation of `c6_solution_loader_amended`: a workspace
root `/ws` containing `app.sln` with one project line yields
`solution/open` and `project/open` injections with the normalized
project path; with no stored root, an empty `/ws` listing, or a solution
file without a `Project("` line, the `initialized` notification is
forwarded alone and the solution stays unopened. -/
theorem c6_solution_loader_amended_witness :
    stRooted.pipeline.solution.workspace_root = some "/ws"
    ∧ find_solution_file fsWs "/ws" = some "/ws/app.sln"
    ∧ validate_solution fsWs "/ws/app.sln" = true
    ∧ ((route_client_message fsWs stRooted
          (.notification ⟨"2.0", "initialized", none⟩)).serverOut =
        stRooted.serverOut ++ create_solution_and_project_notifications fsWs "/ws/app.sln" ++
          [.notification ⟨"2.0", "initialized", none⟩]
        ∧ (route_client_message fsWs stRooted
            (.notification ⟨"2.0", "initialized", none⟩)).pipeline.solution.solution_opened
          = true)
    ∧ create_solution_and_project_notifications fsWs "/ws/app.sln" =
      [.notification ⟨"2.0", "solution/open",
          some (.obj [("solution", .str "file:///ws/app.sln")])⟩,
       .notification ⟨"2.0", "project/open",
          some (.obj [("projects", .arr [.str "file:///ws/App/App.csproj"])])⟩]
    ∧ (RouterState.new.pipeline.solution.workspace_root = none
       ∧ route_client_message fsEmpty RouterState.new
           (.notification ⟨"2.0", "initialized", none⟩) =
         { RouterState.new with serverOut := RouterState.new.serverOut ++
             [.notification ⟨"2.0", "initialized", none⟩] })
    ∧ (find_solution_file fsNoSln "/ws" = none
       ∧ route_client_message fsNoSln stRooted
           (.notification ⟨"2.0", "initialized", none⟩) =
         { stRooted with serverOut := stRooted.serverOut ++
             [.notification ⟨"2.0", "initialized", none⟩] })
    ∧ (find_solution_file fsBadSln "/ws" = some "/ws/app.sln"
       ∧ validate_solution fsBadSln "/ws/app.sln" = false
       ∧ route_client_message fsBadSln stRooted
           (.notification ⟨"2.0", "initialized", none⟩) =
         { stRooted with serverOut := stRooted.serverOut ++
             [.notification ⟨"2.0", "initialized", none⟩] }) := by
  refine ⟨rfl, rfl, rfl, ?_, rfl, ⟨rfl, ?_⟩, ⟨rfl, ?_⟩, ⟨rfl, rfl, ?_⟩⟩
  · exact c6_solution_loader_amended.2.1 fsWs stRooted "2.0" none "/ws" "/ws/app.sln" rfl rfl rfl
  · exact c6_solution_loader_amended.2.2.1 fsEmpty RouterState.new "2.0" none rfl
  · exact c6_solution_loader_amended.2.2.2.1 fsNoSln stRooted "2.0" none "/ws" rfl rfl
  · exact c6_solution_loader_amended.2.2.2.2 fsBadSln stRooted "2.0" none "/ws" "/ws/app.sln"
      rfl rfl rfl

/-- Claim C7 counterexample: a `projectNeedsRestore` request with a fresh
UUID at the initial state is answered `{needed_restore: true}`, not
`{needed_restore: false}` as the claim states. -/
theorem c7_restore_request_counterexample :
    (projectRestore_server ⟨[], []⟩ PipelineState.new
        (.request ⟨"2.0", .num 5, "workspace/_roslyn_projectNeedsRestore",
          some (.obj [("UUID", .str "u9")])⟩)).1 =
      Action.replace (.response (neededRestoreResponse (.num 5) true))
    ∧ Json.obj [("needed_restore", .bool true)] ≠ Json.obj [("needed_restore", .bool false)] := by
  exact ⟨rfl, by simp⟩

/-- Claim C8: every server-originated `workspace/configuration` request
whose params carry an `items` array is answered locally: the router
writes back to the server a response carrying the request id and, as
result, the array of the fixed table's values for each item's section in
order (null for unknown sections); nothing is written to the client. -/
theorem c8_configuration_answerer (fs : FileSystem) (st : RouterState) (j : String) (i : MessageId)
    (p : Json) (items : List Json)
    (hitems : (p.get "items").bind Json.asArr = some items) :
    (route_server_message fs st (.request ⟨j, i, "workspace/configuration", some p⟩)).serverOut =
      st.serverOut ++ [.response
        { jsonrpc := "2.0", id := i, result := some (.arr (items.map configItemAnswer)),
          error := none }]
    ∧ (route_server_message fs st
        (.request ⟨j, i, "workspace/configuration", some p⟩)).clientOut = st.clientOut := by
  unfold route_server_message
  rw [head_config,
    show (serverTail : List Mw) =
      { clientStep := defaultStep, serverStep := configuration_server } :: serverTail2 from rfl,
    chain_cons,
    show Mw.serverStep { clientStep := defaultStep, serverStep := configuration_server } =
      configuration_server from rfl,
    config_server_answer fs st.pipeline j i p items hitems]
  simp [chain_tail2_response fs st.pipeline
      ⟨"2.0", i, some (.arr (items.map configItemAnswer)), none⟩ [] rfl,
    Message.isRequest, Message.isResponse]

/-- Concrete instantiation of `c8_configuration_answerer` on scenario S2:
items `projects.dotnet_enable_automatic_restore` and `unknown.section`
answer `[true, null]` toward the server. -/
theorem c8_configuration_answerer_witness :
    ((Json.obj [("items", .arr [.obj [("section", .str "projects.dotnet_enable_automatic_restore")],
        .obj [("section", .str "unknown.section")]])]).get "items").bind Json.asArr =
      some [.obj [("section", .str "projects.dotnet_enable_automatic_restore")],
            .obj [("section", .str "unknown.section")]]
    ∧ ((route_server_message fsEmpty RouterState.new
          (.request ⟨"2.0", .num 7, "workspace/configuration",
            some (.obj [("items", .arr
              [.obj [("section", .str "projects.dotnet_enable_automatic_restore")],
               .obj [("section", .str "unknown.section")]])])⟩)).serverOut =
        RouterState.new.serverOut ++ [.response
          { jsonrpc := "2.0", id := .num 7,
            result := some (.arr ([.obj [("section", .str "projects.dotnet_enable_automatic_restore")],
              .obj [("section", .str "unknown.section")]].map configItemAnswer)),
            error := none }]
        ∧ (route_server_message fsEmpty RouterState.new
            (.request ⟨"2.0", .num 7, "workspace/configuration",
              some (.obj [("items", .arr
                [.obj [("section", .str "projects.dotnet_enable_automatic_restore")],
                 .obj [("section", .str "unknown.section")]])])⟩)).clientOut =
          RouterState.new.clientOut)
    ∧ [Json.obj [("section", .str "projects.dotnet_enable_automatic_restore")],
       Json.obj [("section", .str "unknown.section")]].map configItemAnswer =
      [.bool true, .null] := by
  refine ⟨rfl, ?_, rfl⟩
  exact c8_configuration_answerer fsEmpty RouterState.new "2.0" (.num 7) _ _ rfl

/-- Claim C9 counterexample: a response whose `result` is absent
serializes with a `"result"` key holding JSON null — the field is not
omitted, because `result` carries no skip attribute in `message.rs`. -/
theorem c9_serialization_counterexample :
    (Message.toJson (.response ⟨"2.0", .num 1, none, some ⟨-32600, "x", none⟩⟩)).get "result" =
      some Json.null
    ∧ ¬ ((Message.toJson (.response ⟨"2.0", .num 1, none, some ⟨-32600, "x", none⟩⟩)).get "result"
        = none) := by
  refine ⟨rfl, fun h => ?_⟩
  rw [show (Message.toJson (.response ⟨"2.0", .num 1, none, some ⟨-32600, "x", none⟩⟩)).get "result"
      = some Json.null from rfl] at h
  exact Option.noConfusion h

/-- Claim C9 (amended): serialization emits `jsonrpc` as `"2.0"` for
every message whose field holds `"2.0"`, serializes ids as the untagged
integer or string, and omits the absent optional fields `params` (of
requests and notifications), `error` (of responses) and `data` (of
errors); the `result` field of a response is always emitted — as JSON
null when absent — rather than omitted. -/
theorem c9_serialization_amended :
    (∀ m : Message, m.jsonrpcOf = "2.0" → (m.toJson).get "jsonrpc" = some (.str "2.0"))
    ∧ (∀ n : Int, MessageId.toJson (.num n) = .num n)
    ∧ (∀ s : String, MessageId.toJson (.str s) = .str s)
    ∧ (∀ req : RequestMessage, ((Message.request req).toJson).get "id" = some req.id.toJson
        ∧ (req.params = none → ((Message.request req).toJson).get "params" = none))
    ∧ (∀ n : NotificationMessage, n.params = none →
        ((Message.notification n).toJson).get "params" = none)
    ∧ (∀ r : ResponseMessage, ((Message.response r).toJson).get "id" = some r.id.toJson
        ∧ (r.error = none → ((Message.response r).toJson).get "error" = none)
        ∧ (r.result = none → ((Message.response r).toJson).get "result" = some Json.null)
        ∧ (∀ v, r.result = some v → ((Message.response r).toJson).get "result" = some v))
    ∧ (∀ e : ResponseError, e.data = none → (e.toJson).get "data" = none) := by
  refine ⟨?_, fun n => rfl, fun s => rfl, ?_, ?_, ?_, ?_⟩
  · intro m hm
    cases m with
    | request req =>
      obtain ⟨j, i, mth, p⟩ := req
      simp only [Message.jsonrpcOf] at hm
      subst hm
      cases p <;> rfl
    | response r =>
      obtain ⟨j, i, res, err⟩ := r
      simp only [Message.jsonrpcOf] at hm
      subst hm
      cases res <;> cases err <;> rfl
    | notification n =>
      obtain ⟨j, mth, p⟩ := n
      simp only [Message.jsonrpcOf] at hm
      subst hm
      cases p <;> rfl
  · intro req
    obtain ⟨j, i, mth, p⟩ := req
    exact ⟨by cases p <;> rfl, by intro h; subst h; rfl⟩
  · intro n h
    obtain ⟨j, mth, p⟩ := n
    simp only at h
    subst h
    rfl
  · intro r
    obtain ⟨j, i, res, err⟩ := r
    refine ⟨by cases res <;> cases err <;> rfl, ?_, ?_, ?_⟩
    · intro h
      simp only at h
      subst h
      cases res <;> rfl
    · intro h
      simp only at h
      subst h
      cases err <;> rfl
    · intro v h
      simp only at h
      subst h
      cases err <;> rfl
  · intro e h
    obtain ⟨c, msg, d⟩ := e
    simp only at h
    subst h
    rfl

/-- Concrete instantiation of `c9_serialization_amended` on sample
messages, including a response with absent result serializing `result`
as null. -/
theorem c9_serialization_amended_witness :
    (Message.notification ⟨"2.0", "initialized", none⟩).jsonrpcOf = "2.0"
    ∧ ((Message.notification ⟨"2.0", "initialized", none⟩).toJson).get "jsonrpc" =
        some (.str "2.0")
    ∧ ((Message.request ⟨"2.0", .num 42, "textDocument/hover", none⟩).toJson).get "id" =
        some (MessageId.num 42).toJson
    ∧ ((Message.request ⟨"2.0", .num 42, "textDocument/hover", none⟩).toJson).get "params" = none
    ∧ ((Message.response ⟨"2.0", .num 1, none, none⟩).toJson).get "result" = some Json.null
    ∧ ((Message.response ⟨"2.0", .num 1, none, none⟩).toJson).get "error" = none := by
  refine ⟨rfl, ?_, ?_, ?_, ?_, ?_⟩
  · exact c9_serialization_amended.1 (.notification ⟨"2.0", "initialized", none⟩) rfl
  · exact (c9_serialization_amended.2.2.2.1 ⟨"2.0", .num 42, "textDocument/hover", none⟩).1
  · exact (c9_serialization_amended.2.2.2.1 ⟨"2.0", .num 42, "textDocument/hover", none⟩).2 rfl
  · exact (c9_serialization_amended.2.2.2.2.2.1 ⟨"2.0", .num 1, none, none⟩).2.2.1 rfl
  · exact (c9_serialization_amended.2.2.2.2.2.1 ⟨"2.0", .num 1, none, none⟩).2.1 rfl

/-- Claim C7 (amended): the project-restore middleware never injects a
restore for the request variant of `workspace/_roslyn_projectNeedsRestore`;
it answers the request locally with `needed_restore: false` exactly when
the UUID was already seen or a restore is in progress, and with
`needed_restore: true` otherwise (recording the UUID and marking the
restore in progress); the router writes the local answer back to the
server and nothing to the client. -/
theorem c7_restore_request_amended :
    ∀ (fs : FileSystem) (st : RouterState) (j : String) (i : MessageId) (p : Option Json),
      projectRestore_server fs st.pipeline
          (.request ⟨j, i, "workspace/_roslyn_projectNeedsRestore", p⟩) =
        (Action.replace (.response (neededRestoreResponse i
          (!((match uuidOfParams p with
              | some u => memStr u st.pipeline.restore.pending_uuids
              | none => false) || st.pipeline.restore.in_progress)))),
         if (match uuidOfParams p with
             | some u => memStr u st.pipeline.restore.pending_uuids
             | none => false) then st.pipeline
         else
           { st.pipeline with restore :=
             { st.pipeline.restore with
               pending_uuids := (match uuidOfParams p with
                                 | some u => u :: st.pipeline.restore.pending_uuids
                                 | none => st.pipeline.restore.pending_uuids),
               in_progress := true } })
      ∧ (route_server_message fs st
          (.request ⟨j, i, "workspace/_roslyn_projectNeedsRestore", p⟩)).serverOut =
        st.serverOut ++ [.response (neededRestoreResponse i
          (!((match uuidOfParams p with
              | some u => memStr u st.pipeline.restore.pending_uuids
              | none => false) || st.pipeline.restore.in_progress)))]
      ∧ (route_server_message fs st
          (.request ⟨j, i, "workspace/_roslyn_projectNeedsRestore", p⟩)).clientOut =
        st.clientOut := by
  intro fs st j i p
  have hr := route_nr_req fs st j i p _ _ (pr_req_answer fs st.pipeline j i p) rfl
  exact ⟨pr_req_answer fs st.pipeline j i p, by rw [hr], by rw [hr]⟩

/-- Claim C10: a client `textDocument/didOpen` notification for a `.cs`
document that arrives before the solution loader marked the solution
opened is blocked and queued (nothing is written to either side); the
queued notifications are written to the server exactly when the server
sends `workspace/projectInitializationComplete`; and the solution-loader
server hook leaves every other method untouched. -/
theorem c10_didopen_queueing :
    (∀ (fs : FileSystem) (st : RouterState) (j uri : String) (p : Json),
      (p.get "textDocument").bind (fun td => (td.get "uri").bind Json.asStr) = some uri →
      strEndsWith uri ".cs" = true →
      st.pipeline.solution.solution_opened = false →
      (route_client_message fs st (.notification ⟨j, "textDocument/didOpen", some p⟩)).serverOut
          = st.serverOut
      ∧ (route_client_message fs st (.notification ⟨j, "textDocument/didOpen", some p⟩)).clientOut
          = st.clientOut
      ∧ (route_client_message fs st
          (.notification ⟨j, "textDocument/didOpen", some p⟩)).pipeline.solution.pending_cs_files
          = st.pipeline.solution.pending_cs_files ++
              [.notification ⟨j, "textDocument/didOpen", some p⟩])
    ∧ (∀ (fs : FileSystem) (st : RouterState) (j : String) (o : Option Json),
        st.pipeline.solution.pending_cs_files.isEmpty = false →
        (route_server_message fs st
            (.notification ⟨j, "workspace/projectInitializationComplete", o⟩)).serverOut =
          st.serverOut ++ st.pipeline.solution.pending_cs_files
        ∧ (route_server_message fs st
            (.notification ⟨j, "workspace/projectInitializationComplete", o⟩)).pipeline.solution.pending_cs_files = [])
    ∧ (∀ (fs : FileSystem) (pst : PipelineState) (m : Message),
        m.methodOf ≠ some "workspace/projectInitializationComplete" →
        solutionLoader_server fs pst m = (Action.cont, pst)) := by
  refine ⟨?_, ?_, ?_⟩
  · intro fs st j uri p hget hcs hopen
    unfold route_client_message
    rw [head_client,
      processChain_cons_cont _ _ (docLC_didOpen fs st.pipeline j p),
      processChain_cons_block _ _ (slClient_didOpen_block fs
        { st.pipeline with opened_documents :=
            match parseDidOpenParams p with
            | some uri2 => uri2 :: st.pipeline.opened_documents
            | none => st.pipeline.opened_documents }
        j uri p hget hcs hopen)]
    simp
  · intro fs st j o hpend
    unfold route_server_message
    rw [head_pic,
      processChain_cons_inject _ _ (slServer_pic fs st.pipeline j o hpend),
      chain_tail_pic]
    simp [Message.isRequest, Message.isResponse, unmap_server_message]
  · intro fs pst m hm
    cases m with
    | request req => rfl
    | response r => rfl
    | notification n =>
      simp only [Message.methodOf] at hm
      simp only [solutionLoader_server]
      rw [if_neg]
      intro h
      exact hm (by rw [h])

/-- Concrete instantiation of `c10_didopen_queueing`, discharging its
hypotheses on the scenario of an early `.cs` didOpen and a later
`workspace/projectInitializationComplete`. -/
theorem c10_didopen_queueing_witness :
    ((Json.obj [("textDocument", .obj [("uri", .str "file:///ws/A.cs")])]).get
        "textDocument").bind (fun td => (td.get "uri").bind Json.asStr) =
      some "file:///ws/A.cs"
    ∧ strEndsWith "file:///ws/A.cs" ".cs" = true
    ∧ RouterState.new.pipeline.solution.solution_opened = false
    ∧ ((route_client_message fsEmpty RouterState.new didOpenCsMsg).serverOut =
        RouterState.new.serverOut
      ∧ (route_client_message fsEmpty RouterState.new didOpenCsMsg).clientOut =
        RouterState.new.clientOut
      ∧ (route_client_message fsEmpty
          RouterState.new didOpenCsMsg).pipeline.solution.pending_cs_files =
        RouterState.new.pipeline.solution.pending_cs_files ++ [didOpenCsMsg])
    ∧ stPending.pipeline.solution.pending_cs_files.isEmpty = false
    ∧ ((route_server_message fsEmpty stPending
          (.notification ⟨"2.0", "workspace/projectInitializationComplete", none⟩)).serverOut =
        stPending.serverOut ++ stPending.pipeline.solution.pending_cs_files
      ∧ (route_server_message fsEmpty stPending
          (.notification ⟨"2.0", "workspace/projectInitializationComplete",
            none⟩)).pipeline.solution.pending_cs_files = [])
    ∧ solutionLoader_server fsEmpty PipelineState.new
        (.request ⟨"2.0", .num 3, "workspace/symbol", none⟩) =
      (Action.cont, PipelineState.new) := by
  refine ⟨rfl, rfl, rfl, ?_, rfl, ?_, ?_⟩
  · exact c10_didopen_queueing.1 fsEmpty RouterState.new "2.0" "file:///ws/A.cs"
      (.obj [("textDocument", .obj [("uri", .str "file:///ws/A.cs")])]) rfl rfl rfl
  · exact c10_didopen_queueing.2.1 fsEmpty stPending "2.0" none rfl
  · exact c10_didopen_queueing.2.2 fsEmpty PipelineState.new
      (.request ⟨"2.0", .num 3, "workspace/symbol", none⟩) (by decide)


end RoslynProxy
